import Mathlib

set_option maxRecDepth 8000
set_option maxHeartbeats 1000000

/-!
Verification of the saas-sec-agents compliance pipeline.

This file gives a shallow embedding of the core pipeline of the repository:

* the rule-based assessor (src/skills/oscal_assess/oscal_assess.py),
* the control crosswalk mapper (src/scripts/oscal_gap_map.py),
* the domain scoring engine (src/skills/sscf_benchmark/sscf_benchmark.py),
* the orchestration-loop gate and tool-error policy (src/harness/loop.py,
  src/harness/tools.py),

together with theorems settling the behavioural claims about them.

Modelling conventions:
* Python/JSON values are modelled by the inductive type Json below.  Numeric
  leaves are modelled as integers (the fields the pipeline reads — totalSize,
  Score, counts — are integers in all artifacts it produces or consumes).
* Python dicts are modelled as association lists with first-match lookup.
* Fallible Python code (code that can raise) is modelled in the Except String
  monad; a .error value models an uncaught Python exception with the exception
  class recorded in the message.
* Python builtin string functions are re-implemented structurally over the
  character list of a String (the Lean builtins do not reduce in the kernel),
  matching the Python semantics on the ASCII data the pipeline handles.
-/

namespace SaasSec

/-- JSON/Python value model.  num carries an integer (see header note). -/
inductive Json where
  | null
  | bool (b : Bool)
  | num (n : Int)
  | str (s : String)
  | arr (elems : List Json)
  | obj (fields : List (String × Json))

/-- Python dict lookup on an association list (dicts have unique keys, so
first-match lookup agrees with dict lookup). -/
def jsonLookup : List (String × Json) → String → Option Json
  | [], _ => none
  | (k, v) :: rest, key => if k = key then some v else jsonLookup rest key

/-- Python truthiness of a value (bool(x)). -/
def truthy : Json → Bool
  | .null => false
  | .bool b => b
  | .num n => n != 0
  | .str s => s ≠ ""
  | .arr xs => !xs.isEmpty
  | .obj fs => !fs.isEmpty

/-- Truthiness of d.get(k) (default None, and None is falsy). -/
def truthyOpt : Option Json → Bool
  | some v => truthy v
  | none => false

/-- Whether a value may be used as a dict key / set element (is hashable).
Python lists and dicts are unhashable; using one in a membership test or as
a key raises TypeError. -/
def hashable : Json → Bool
  | .arr _ => false
  | .obj _ => false
  | _ => true

/-- d.get(key, default) where the receiver must be a dict: on any non-dict
receiver the attribute access raises (AttributeError). -/
def dictGet (v : Json) (key : String) (dflt : Json) : Except String Json :=
  match v with
  | .obj fs => .ok ((jsonLookup fs key).getD dflt)
  | _ => .error "AttributeError: get on non-dict"

/-- ASCII lower-casing of one character (models str.lower on ASCII data). -/
def charLower (c : Char) : Char :=
  if 'A' ≤ c ∧ c ≤ 'Z' then Char.ofNat (c.toNat + 32) else c

/-- str.lower() -/
def pyLower (s : String) : String := ⟨s.data.map charLower⟩

def isSpaceChar (c : Char) : Bool := c = ' ' || c = '\t' || c = '\n' || c = '\r'

def dropLeadingSpace : List Char → List Char
  | [] => []
  | c :: cs => if isSpaceChar c then dropLeadingSpace cs else c :: cs

/-- str.strip() -/
def pyStrip (s : String) : String :=
  ⟨(dropLeadingSpace (dropLeadingSpace s.data.reverse).reverse)⟩

def listIsPrefixOfB : List Char → List Char → Bool
  | [], _ => true
  | _ :: _, [] => false
  | c :: cs, d :: ds => c = d && listIsPrefixOfB cs ds

/-- str.startswith(p) -/
def pyStartsWith (s p : String) : Bool := listIsPrefixOfB p.data s.data

/-- substring containment, i.e. Python's (needle in haystack). -/
def hasSubstr (hay need : List Char) : Bool :=
  match hay with
  | [] => listIsPrefixOfB need []
  | _ :: rest => listIsPrefixOfB need hay || hasSubstr rest need

def digitVal (c : Char) : Option Nat :=
  if '0' ≤ c ∧ c ≤ '9' then some (c.toNat - '0'.toNat) else none

def digitsVal : List Char → Option Nat
  | [] => none
  | cs => go cs 0
where
  go : List Char → Nat → Option Nat
    | [], acc => some acc
    | c :: cs, acc =>
      match digitVal c with
      | some d => go cs (acc * 10 + d)
      | none => none

/-- int(s) on a string: surrounding whitespace allowed, optional sign, then
decimal digits; anything else raises ValueError (modelled as none). -/
def pyStrToInt (s : String) : Option Int :=
  match (pyStrip s).data with
  | '-' :: cs => (digitsVal cs).map (fun n => -(n : Int))
  | '+' :: cs => (digitsVal cs).map (fun n => (n : Int))
  | cs => (digitsVal cs).map (fun n => (n : Int))

/-- int(v) on an arbitrary value: ints pass through, bools coerce to 0/1,
numeric strings parse, everything else raises (TypeError/ValueError). -/
def pyInt (v : Json) : Except String Int :=
  match v with
  | .num n => .ok n
  | .bool b => .ok (if b then 1 else 0)
  | .str s =>
    match pyStrToInt s with
    | some n => .ok n
    | none => .error "ValueError: invalid literal for int"
  | _ => .error "TypeError: int() argument"

/-- v < k for an int k: numbers and bools compare, anything else raises
TypeError (Python 3 refuses cross-type ordering). -/
def pyLtInt (v : Json) (k : Int) : Except String Bool :=
  match v with
  | .num n => .ok (decide (n < k))
  | .bool b => .ok (decide ((if b then (1 : Int) else 0) < k))
  | _ => .error "TypeError: unorderable types"

/-- str(v) rendering used in f-strings; exact for the scalar values the
pipeline formats (container rendering is approximate and is never relied on
by a theorem). -/
def pyStrOf : Json → String
  | .null => "None"
  | .bool true => "True"
  | .bool false => "False"
  | .num n => toString n
  | .str s => s
  | .arr _ => "[...]"
  | .obj _ => "{...}"

/-- Lexicographic code-point comparison of strings (Python's str ordering). -/
def charListLe : List Char → List Char → Bool
  | [], _ => true
  | _ :: _, [] => false
  | c :: cs, d :: ds =>
    if c = d then charListLe cs ds else decide (c < d)

def pyStrLe (a b : String) : Bool := charListLe a.data b.data

/-- Insertion into a ≤-sorted list (stable). -/
def sortInsert (x : String) : List String → List String
  | [] => [x]
  | y :: ys => if pyStrLe x y then x :: y :: ys else y :: sortInsert x ys

/-- sorted(l) for strings (insertion sort; the inputs are duplicate-free). -/
def pySorted : List String → List String
  | [] => []
  | x :: xs => sortInsert x (pySorted xs)

/-- ", ".join(l) -/
def pyJoin (sep : String) : List String → String
  | [] => ""
  | [x] => x
  | x :: xs => x ++ sep ++ pyJoin sep xs

/-- Python == on the hashable (scalar) values that can live in a set: bools
compare equal to the ints 0/1, as in Python.  Containers never reach a set
(the unhashable check raises first), so they are never equal here. -/
def pyEqScalar : Json → Json → Bool
  | .null, .null => true
  | .bool a, .bool b => a == b
  | .num a, .num b => a == b
  | .bool a, .num b => (if a then (1 : Int) else 0) == b
  | .num a, .bool b => a == (if b then (1 : Int) else 0)
  | .str a, .str b => a == b
  | _, _ => false

def listElemBy (eq : α → α → Bool) (x : α) : List α → Bool
  | [] => false
  | y :: ys => eq x y || listElemBy eq x ys

/-- Deduplication with an explicit equality (models building a Python set
from a list as far as membership, size and sorted output go). -/
def dedupBy (eq : α → α → Bool) : List α → List α
  | [] => []
  | x :: xs => if listElemBy eq x xs then dedupBy eq xs else x :: dedupBy eq xs

end SaasSec

namespace SaasSec

/-- An upper-case counterpart used by _rule_int_004 (models str.upper on the
ASCII event-type names). -/
def charUpper (c : Char) : Char :=
  if 'a' ≤ c ∧ c ≤ 'z' then Char.ofNat (c.toNat - 32) else c

def pyUpper (s : String) : String := ⟨s.data.map charUpper⟩

/-- Generic association-list lookup (Python dict with string keys). -/
def assocLookup : List (String × α) → String → Option α
  | [], _ => none
  | (k, v) :: rest, key => if k = key then some v else assocLookup rest key

/-- A Python dict value, as an association list. -/
abbrev Obj := List (String × Json)

end SaasSec

namespace OscalAssess

open SaasSec

/-! Shallow embedding of src/skills/oscal_assess/oscal_assess.py. -/

def VALID_STATUSES : List String := ["pass", "fail", "partial", "not_applicable"]

def VALID_SEVERITIES : List String := ["critical", "high", "moderate", "low"]

/-- The Finding dataclass.  control_id is kept as a Json value because
run_assessment feeds it straight from control.get("control_id", "") without
a type check. -/
structure Finding where
  control_id : Json
  status : String
  severity : String
  observed_value : String
  remediation : String
  owner : String
  due_date : String

/-- Positional construction as used by the rules: Finding(cid, status,
severity, observed_value[, remediation]), owner and due_date defaulted. -/
def Finding.make (control_id : Json) (status severity observed_value : String)
    (remediation : String := "") : Finding :=
  { control_id, status, severity, observed_value, remediation,
    owner := "Business Security Services", due_date := "" }

/-- Finding.to_dict (the date-dependent evidence_ref is deterministic in
org/env/control_id/date, which are passed in). -/
def Finding.to_dict (f : Finding) (_org env date_str : String) : Json :=
  .obj [
    ("control_id", f.control_id),
    ("status", .str f.status),
    ("severity", .str f.severity),
    ("owner", .str f.owner),
    ("due_date", .str f.due_date),
    ("observed_value", .str f.observed_value),
    ("remediation", .str f.remediation),
    ("evidence_ref", .str ("collector://salesforce/" ++ env ++ "/" ++ pyStrOf f.control_id ++ "/snapshot-" ++ date_str))]

def _na (control_id : Json) (severity : String)
    (reason : String := "Scope not collected by sfdc-connect") : Finding :=
  Finding.make control_id "not_applicable" severity reason

/-- _scope: named-scope extraction with the single-scope fallback — if the
name is absent and the dict is non-empty, the whole dict is returned as the
scope's data; the result plays the role of Python's Any|None (null = None). -/
def _scope (raw : Obj) (scope_name : String) : Json :=
  match jsonLookup raw scope_name with
  | some v => v
  | none => if raw.isEmpty then .null else .obj raw

/-- _total: int(obj.get("totalSize", 0)) when obj is a dict, else 0; the
int() coercion raises on null/list/dict and non-numeric strings. -/
def _total (obj : Json) : Except String Int :=
  match obj with
  | .obj fs => pyInt ((jsonLookup fs "totalSize").getD (.num 0))
  | _ => .ok 0

/-- _records: the records list filtered to dicts when obj is a dict, else [].
Iterating a non-iterable records value (number, bool, null) raises; iterating
a string or dict yields no dict elements. -/
def _records (obj : Json) : Except String (List Obj) :=
  match obj with
  | .obj fs =>
    match (jsonLookup fs "records").getD (.arr []) with
    | .arr xs => .ok (xs.filterMap fun j => match j with | .obj g => some g | _ => none)
    | .str _ => .ok []
    | .obj _ => .ok []
    | _ => .error "TypeError: iteration over non-sequence"
  | _ => .ok []

abbrev Rule := Obj → Except String Finding

def _rule_auth_001 : Rule := fun raw => do
  let auth := _scope raw "auth"
  if !truthy auth then
    return _na (.str "SBS-AUTH-001") "critical"
  let sso ← dictGet auth "sso_providers" (.obj [])
  let providers ← _records sso
  let enabled := providers.filter fun p => truthyOpt (jsonLookup p "IsEnabled")
  if providers.isEmpty then
    return Finding.make (.str "SBS-AUTH-001") "fail" "critical"
      "No SAML SSO providers configured — org-wide SSO not enforced."
      "Configure and enable at least one SAML SSO provider in Setup > Single Sign-On Settings."
  if enabled.isEmpty then
    let n := providers.length
    return Finding.make (.str "SBS-AUTH-001") "partial" "critical"
      s!"{n} SSO provider(s) configured but none enabled."
      "Enable the configured SSO provider and enforce org-wide SSO."
  let n := enabled.length
  return Finding.make (.str "SBS-AUTH-001") "pass" "critical"
    s!"{n} enabled SSO provider(s) found."

def _rule_auth_002 : Rule := fun raw => do
  let auth := _scope raw "auth"
  if !truthy auth then
    return _na (.str "SBS-AUTH-002") "moderate"
  let sso ← dictGet auth "sso_providers" (.obj [])
  let providers ← _records sso
  let ip_ranges ← _total (← dictGet auth "login_ip_ranges" (.obj []))
  if providers.isEmpty then
    return Finding.make (.str "SBS-AUTH-002") "partial" "moderate"
      "SSO not configured — SSO bypass governance cannot be assessed."
      "Configure SSO before evaluating bypass governance."
  if ip_ranges == 0 then
    let n := providers.length
    return Finding.make (.str "SBS-AUTH-002") "partial" "moderate"
      s!"SSO configured ({n} provider(s)) but no Login IP Ranges restrict bypass."
      "Define Login IP Ranges on profiles that are exempt from SSO to limit bypass exposure."
  return Finding.make (.str "SBS-AUTH-002") "pass" "moderate"
    s!"SSO configured with {ip_ranges} Login IP Range restriction(s) governing bypass."

def _rule_auth_003 : Rule := fun raw => do
  let auth := _scope raw "auth"
  if !truthy auth then
    return _na (.str "SBS-AUTH-003") "moderate"
  let ip_ranges ← _total (← dictGet auth "login_ip_ranges" (.obj []))
  if ip_ranges == 0 then
    return Finding.make (.str "SBS-AUTH-003") "fail" "moderate"
      "No Login IP Ranges configured — all IPs permitted for all profiles."
      "Configure Login IP Ranges on privileged profiles to restrict access by network location."
  if ip_ranges < 3 then
    return Finding.make (.str "SBS-AUTH-003") "partial" "moderate"
      s!"Only {ip_ranges} Login IP Range(s) — coverage may be incomplete."
      "Review whether all privileged profiles have Login IP Ranges applied."
  return Finding.make (.str "SBS-AUTH-003") "pass" "moderate"
    s!"{ip_ranges} Login IP Range(s) configured."

def _rule_auth_004 : Rule := fun raw => do
  let auth := _scope raw "auth"
  if !truthy auth then
    return _na (.str "SBS-AUTH-004") "moderate"
  let mfa ← dictGet auth "mfa_org_settings" (.obj [])
  if (match mfa with | .obj fs => (jsonLookup fs "error").isSome | _ => false) then
    return Finding.make (.str "SBS-AUTH-004") "partial" "moderate"
      "MFA org settings could not be retrieved via Tooling API — manual review required."
      "Verify MFA enforcement for external users in Setup > Identity Verification."
  let records ← _records mfa
  match records with
  | rec :: _ =>
    if truthy ((jsonLookup rec "MultiFactorAuthenticationForUserUI").getD (.bool false)) then
      return Finding.make (.str "SBS-AUTH-004") "pass" "moderate"
        "MFA enforced for user UI (MultiFactorAuthenticationForUserUI=true)."
    return Finding.make (.str "SBS-AUTH-004") "partial" "moderate"
      "MFA org-level enforcement not confirmed — Tooling API returned no usable MFA fields."
      "Confirm MFA enforcement in Setup > Identity Verification or via Transaction Security policies."
  | [] =>
    return Finding.make (.str "SBS-AUTH-004") "partial" "moderate"
      "MFA org-level enforcement not confirmed — Tooling API returned no usable MFA fields."
      "Confirm MFA enforcement in Setup > Identity Verification or via Transaction Security policies."

def _rule_acs_001 : Rule := fun raw => do
  let access := _scope raw "access"
  if !truthy access then
    return _na (.str "SBS-ACS-001") "high"
  let admin_profiles ← _total (← dictGet access "admin_profiles" (.obj []))
  if admin_profiles > 5 then
    return Finding.make (.str "SBS-ACS-001") "fail" "high"
      s!"{admin_profiles} profiles with ModifyAllData or ManageUsers — excessive admin surface."
      "Reduce admin profiles; document and justify each. Target ≤2 for ModifyAllData."
  if admin_profiles > 2 then
    return Finding.make (.str "SBS-ACS-001") "partial" "high"
      s!"{admin_profiles} elevated profiles — review and justify each."
      "Document justification for all profiles with elevated permissions."
  return Finding.make (.str "SBS-ACS-001") "pass" "high"
    s!"{admin_profiles} admin profile(s) — within acceptable threshold."

def _rule_acs_002 : Rule := fun raw => do
  let access := _scope raw "access"
  if !truthy access then
    return _na (.str "SBS-ACS-002") "high"
  let perm_sets ← _total (← dictGet access "elevated_permission_sets" (.obj []))
  if perm_sets > 10 then
    return Finding.make (.str "SBS-ACS-002") "fail" "high"
      s!"{perm_sets} permission sets with elevated privileges — undocumented API access likely."
      "Audit and document justification for all permission sets with ModifyAllData or ManageUsers."
  if perm_sets > 4 then
    return Finding.make (.str "SBS-ACS-002") "partial" "high"
      s!"{perm_sets} elevated permission sets — verify all are documented and justified."
      "Ensure each elevated permission set has a documented business justification."
  return Finding.make (.str "SBS-ACS-002") "pass" "high"
    s!"{perm_sets} elevated permission set(s) — within acceptable threshold."

def _rule_acs_003 : Rule := fun raw => do
  let access := _scope raw "access"
  if !truthy access then
    return _na (.str "SBS-ACS-003") "critical"
  let apps ← _records (← dictGet access "connected_apps" (.obj []))
  if apps.isEmpty then
    return Finding.make (.str "SBS-ACS-003") "pass" "critical"
      "No connected apps found."
  let unrestricted := apps.filter fun a => !truthyOpt (jsonLookup a "OptionsAllowAdminApprovedUsersOnly")
  if unrestricted.length == apps.length then
    let n := apps.length
    return Finding.make (.str "SBS-ACS-003") "fail" "critical"
      s!"All {n} connected app(s) allow non-admin-approved users."
      "Restrict all connected apps to admin-approved users only via OAuth policy."
  if !unrestricted.isEmpty then
    let nu := unrestricted.length
    let n := apps.length
    return Finding.make (.str "SBS-ACS-003") "partial" "critical"
      s!"{nu}/{n} connected app(s) not restricted to admin-approved users."
      "Apply admin-approved-users-only policy to all connected apps."
  let n := apps.length
  return Finding.make (.str "SBS-ACS-003") "pass" "critical"
    s!"All {n} connected app(s) restricted to admin-approved users."

def _rule_acs_004 : Rule := fun raw => do
  let access := _scope raw "access"
  if !truthy access then
    return _na (.str "SBS-ACS-004") "high"
  let profiles ← _records (← dictGet access "admin_profiles" (.obj []))
  let super_admin := profiles.filter fun p =>
    truthyOpt (jsonLookup p "PermissionsModifyAllData") && truthyOpt (jsonLookup p "PermissionsManageUsers")
  let count := super_admin.length
  if count > 2 then
    return Finding.make (.str "SBS-ACS-004") "fail" "high"
      s!"{count} profiles have both ModifyAllData and ManageUsers — super admin equivalent."
      "Reduce to ≤2 super-admin-equivalent profiles with documented justification."
  if count > 0 then
    return Finding.make (.str "SBS-ACS-004") "partial" "high"
      s!"{count} super admin–equivalent profile(s) — verify documented justification exists."
      "Document the business justification for each super-admin-equivalent profile."
  return Finding.make (.str "SBS-ACS-004") "pass" "high"
    "No profiles found with both ModifyAllData and ManageUsers."

def _rule_acs_structural (control_id : String) (severity : String) : Rule := fun raw => do
  let access := _scope raw "access"
  if !truthy access then
    return _na (.str control_id) severity
  return Finding.make (.str control_id) "partial" severity
    "Access scope collected — full assessment requires detailed profile/permission set audit."
    s!"Run a detailed permission audit for {control_id} using Setup > Permission Set Analyzer."

def _rule_int_002 : Rule := fun raw => do
  let integrations := _scope raw "integrations"
  if !truthy integrations then
    return _na (.str "SBS-INT-002") "moderate"
  let sites ← _records (← dictGet integrations "remote_site_settings" (.obj []))
  let insecure := sites.filter fun s =>
    truthyOpt (jsonLookup s "DisableProtocolSecurity") && truthyOpt (jsonLookup s "IsActive")
  let inactive_insecure := sites.filter fun s =>
    truthyOpt (jsonLookup s "DisableProtocolSecurity") && !truthyOpt (jsonLookup s "IsActive")
  if !insecure.isEmpty then
    let n := insecure.length
    return Finding.make (.str "SBS-INT-002") "fail" "moderate"
      s!"{n} active remote site(s) have protocol security disabled."
      "Enable protocol security on all active Remote Site Settings or remove unused entries."
  if !inactive_insecure.isEmpty then
    let n := inactive_insecure.length
    return Finding.make (.str "SBS-INT-002") "partial" "moderate"
      s!"{n} inactive remote site(s) have protocol security disabled."
      "Remove or remediate inactive remote sites with insecure protocol settings."
  let total := sites.length
  return Finding.make (.str "SBS-INT-002") "pass" "moderate"
    s!"{total} remote site setting(s) — none with protocol security disabled."

def _rule_int_003 : Rule := fun raw => do
  let integrations := _scope raw "integrations"
  if !truthy integrations then
    return _na (.str "SBS-INT-003") "moderate"
  let creds ← _records (← dictGet integrations "named_credentials" (.obj []))
  if creds.isEmpty then
    return Finding.make (.str "SBS-INT-003") "partial" "moderate"
      "No Named Credentials found — integrations may be using hardcoded credentials."
      "Migrate integration credentials to Named Credentials to centralize and govern access."
  let n := creds.length
  return Finding.make (.str "SBS-INT-003") "pass" "moderate"
    s!"{n} Named Credential(s) found — managed integration credentials in use."

def _rule_int_004 : Rule := fun raw => do
  let em := _scope raw "event-monitoring"
  if !truthy em then
    return _na (.str "SBS-INT-004") "high"
  let log_types ← _records (← dictGet em "event_log_types" (.obj []))
  let etsRaw := log_types.filterMap fun r =>
    let v := (jsonLookup r "EventType").getD .null
    if truthy v then some v else none
  if etsRaw.any (fun v => !hashable v) then
    .error "TypeError: unhashable type in set"
  else do
  let unique_types := dedupBy pyEqScalar etsRaw
  if unique_types.isEmpty then
    return Finding.make (.str "SBS-INT-004") "fail" "high"
      "No Event Log File types found in last 7 days — API event monitoring not active."
      "Enable Event Monitoring in Setup > Event Manager and ensure API event types are captured."
  if unique_types.any (fun t => match t with | .str _ => false | _ => true) then
    .error "AttributeError: upper on non-str"
  else do
  let names := unique_types.filterMap fun t => match t with | .str s => some s | _ => none
  let api_types := names.filter fun t =>
    hasSubstr (pyUpper t).data "API".data || hasSubstr (pyUpper t).data "REST".data
  if api_types.isEmpty then
    let n := unique_types.length
    return Finding.make (.str "SBS-INT-004") "partial" "high"
      s!"{n} event type(s) found but no API-specific event types detected."
      "Enable API event types (ApiEvent, RestApi) in Event Manager for full API telemetry."
  let n := api_types.length
  let joined := pyJoin ", " (pySorted api_types)
  return Finding.make (.str "SBS-INT-004") "pass" "high"
    s!"{n} API event type(s) active: {joined}."

def _rule_oauth_001 : Rule := fun raw => do
  let oauth := _scope raw "oauth"
  if !truthy oauth then
    return _na (.str "SBS-OAUTH-001") "critical"
  let policies ← _records (← dictGet oauth "connected_app_oauth_policies" (.obj []))
  if policies.isEmpty then
    return Finding.make (.str "SBS-OAUTH-001") "pass" "critical"
      "No OAuth-enabled connected apps found."
  let open_access := policies.filter fun p =>
    match (jsonLookup p "PermittedUsersPolicyEnum").getD (.str "") with
    | .str "AllUsers" => true
    | .str "" => true
    | _ => false
  if open_access.length == policies.length then
    let n := policies.length
    return Finding.make (.str "SBS-OAUTH-001") "fail" "critical"
      s!"All {n} connected app(s) allow all users — no formal installation control."
      "Restrict all connected apps to admin-approved users or specific profiles/permission sets."
  if !open_access.isEmpty then
    let no := open_access.length
    let n := policies.length
    return Finding.make (.str "SBS-OAUTH-001") "partial" "critical"
      s!"{no}/{n} connected app(s) permit all users."
      "Apply admin-approved-only policy to all connected apps."
  let n := policies.length
  return Finding.make (.str "SBS-OAUTH-001") "pass" "critical"
    s!"All {n} connected app(s) have controlled access policies."

def _rule_oauth_002 : Rule := fun raw => do
  let oauth := _scope raw "oauth"
  if !truthy oauth then
    return _na (.str "SBS-OAUTH-002") "critical"
  let policies ← _records (← dictGet oauth "connected_app_oauth_policies" (.obj []))
  if policies.isEmpty then
    return Finding.make (.str "SBS-OAUTH-002") "pass" "critical"
      "No OAuth-enabled connected apps found."
  let unrestricted := policies.filter fun p =>
    !truthyOpt (jsonLookup p "OptionsAllowAdminApprovedUsersOnly")
  if unrestricted.length == policies.length then
    let n := policies.length
    return Finding.make (.str "SBS-OAUTH-002") "fail" "critical"
      s!"All {n} connected app(s) not restricted to admin-approved users."
      "Enable 'Admin approved users are pre-authorized' on all connected apps."
  if !unrestricted.isEmpty then
    let nu := unrestricted.length
    let n := policies.length
    return Finding.make (.str "SBS-OAUTH-002") "partial" "critical"
      s!"{nu}/{n} connected app(s) lack admin-approved restriction."
      "Apply admin-approved-users policy to all remaining connected apps."
  let n := policies.length
  return Finding.make (.str "SBS-OAUTH-002") "pass" "critical"
    s!"All {n} connected app(s) restricted to admin-approved users."

def _rule_oauth_structural (control_id : String) (severity : String) : Rule := fun raw => do
  let oauth := _scope raw "oauth"
  if !truthy oauth then
    return _na (.str control_id) severity
  return Finding.make (.str control_id) "partial" severity
    "OAuth scope collected — full assessment requires manual classification and documentation."
    s!"Complete manual assessment for {control_id} per the SBS runbook."

def _rule_data_004 : Rule := fun raw => do
  let em := _scope raw "event-monitoring"
  if !truthy em then
    return _na (.str "SBS-DATA-004") "high"
  let tracked ← _total (← dictGet em "field_history_retention" (.obj []))
  if tracked == 0 then
    return Finding.make (.str "SBS-DATA-004") "fail" "high"
      "No fields with history tracking enabled found."
      "Enable Field History Tracking on sensitive fields in object field settings."
  if tracked < 10 then
    return Finding.make (.str "SBS-DATA-004") "partial" "high"
      s!"Only {tracked} tracked field(s) — coverage may be insufficient for sensitive data."
      "Review all objects containing PII/regulated data and enable Field History Tracking."
  return Finding.make (.str "SBS-DATA-004") "pass" "high"
    s!"{tracked} field(s) with history tracking enabled."

def _rule_data_structural (control_id : String) (severity : String) : Rule := fun _raw =>
  .ok (Finding.make (.str control_id) "partial" severity
    "Data security controls require field-level inventory — not available via sfdc-connect."
    s!"Complete {control_id} assessment via Setup > Data Classification or a custom SOQL audit.")

def _rule_secconf_001 : Rule := fun raw => do
  let secconf := _scope raw "secconf"
  if !truthy secconf then
    return _na (.str "SBS-SECCONF-001") "high"
  let hc ← dictGet secconf "health_check" (.obj [])
  if (match hc with | .obj fs => (jsonLookup fs "note").isSome | _ => false) then
    return Finding.make (.str "SBS-SECCONF-001") "partial" "high"
      "Health Check not available via SOQL — check manually in Setup > Security Health Check."
      "Review Security Health Check in the Salesforce UI and establish a documented baseline."
  let records ← _records hc
  match records with
  | [] =>
    return Finding.make (.str "SBS-SECCONF-001") "partial" "high"
      "Health Check score could not be retrieved via API."
      "Verify Health Check is accessible and document the baseline score."
  | rec :: _ => do
    let score := (jsonLookup rec "Score").getD (.num 0)
    let scoreStr := pyStrOf score
    if (← pyLtInt score 50) then
      return Finding.make (.str "SBS-SECCONF-001") "fail" "high"
        s!"Health Check score: {scoreStr}/100 — critically below baseline."
        "Address all Health Check findings in Setup > Security Health Check immediately."
    if (← pyLtInt score 80) then
      return Finding.make (.str "SBS-SECCONF-001") "partial" "high"
        s!"Health Check score: {scoreStr}/100 — below recommended 80% threshold."
        "Remediate Health Check findings to reach ≥80% score."
    return Finding.make (.str "SBS-SECCONF-001") "pass" "high"
      s!"Health Check score: {scoreStr}/100."

def _rule_secconf_002 : Rule := fun raw => do
  let secconf := _scope raw "secconf"
  if !truthy secconf then
    return _na (.str "SBS-SECCONF-002") "high"
  let hc ← dictGet secconf "health_check" (.obj [])
  let records ← _records hc
  match records with
  | [] =>
    return Finding.make (.str "SBS-SECCONF-002") "partial" "high"
      "Health Check deviations cannot be enumerated via API — manual review required."
      "Review and remediate each Health Check deviation in Setup > Security Health Check."
  | rec :: _ => do
    let score := (jsonLookup rec "Score").getD (.num 0)
    let scoreStr := pyStrOf score
    if (← pyLtInt score 50) then
      return Finding.make (.str "SBS-SECCONF-002") "fail" "high"
        s!"Health Check score {scoreStr}/100 indicates unaddressed critical deviations."
        "Resolve all failing Health Check items — prioritise Critical and High risk items."
    if (← pyLtInt score 80) then
      return Finding.make (.str "SBS-SECCONF-002") "partial" "high"
        s!"Health Check score {scoreStr}/100 — some deviations remain unaddressed."
        "Continue remediating Health Check findings until score reaches ≥80%."
    return Finding.make (.str "SBS-SECCONF-002") "pass" "high"
      s!"Health Check score {scoreStr}/100 — deviations within acceptable range."

def _rule_dep_003 : Rule := fun raw => do
  let ts := _scope raw "transaction-security"
  if !truthy ts then
    return _na (.str "SBS-DEP-003") "high"
  let policies ← _records (← dictGet ts "policies" (.obj []))
  if policies.isEmpty then
    return Finding.make (.str "SBS-DEP-003") "fail" "high"
      "No Transaction Security Policies found — no automated threat response configured."
      "Create Transaction Security Policies in Setup > Transaction Security to monitor high-risk events."
  let enabled := policies.filter fun p => truthyOpt (jsonLookup p "IsEnabled")
  if enabled.isEmpty then
    let n := policies.length
    return Finding.make (.str "SBS-DEP-003") "partial" "high"
      s!"{n} Transaction Security Polic(ies) found but none enabled."
      "Enable relevant Transaction Security Policies to enforce automated threat response."
  let ne := enabled.length
  let n := policies.length
  return Finding.make (.str "SBS-DEP-003") "pass" "high"
    s!"{ne}/{n} Transaction Security Polic(ies) active."

def _rule_not_collectable (control_id : String) (severity : String) (reason : String) : Rule :=
  fun _raw => .ok (_na (.str control_id) severity reason)

def _CODE_NA : String := "Requires source code review — not assessable via Salesforce API"

def _PORTAL_NA : String := "Requires Apex/LWC code audit — not assessable via Salesforce API"

def _DEP_NA : String := "Requires CI/CD and source repository audit — not assessable via Salesforce API"

def _FILE_NA : String := "Requires manual content link review — not assessable via Salesforce API"

def _FDNS_NA : String := "Foundational governance control — requires manual programme review"

/-- The rule registry, in source order. -/
def RULES : List (String × Rule) := [
  ("SBS-AUTH-001", _rule_auth_001),
  ("SBS-AUTH-002", _rule_auth_002),
  ("SBS-AUTH-003", _rule_auth_003),
  ("SBS-AUTH-004", _rule_auth_004),
  ("SBS-ACS-001", _rule_acs_001),
  ("SBS-ACS-002", _rule_acs_002),
  ("SBS-ACS-003", _rule_acs_003),
  ("SBS-ACS-004", _rule_acs_004),
  ("SBS-ACS-005", _rule_acs_structural "SBS-ACS-005" "high"),
  ("SBS-ACS-006", _rule_acs_structural "SBS-ACS-006" "critical"),
  ("SBS-ACS-007", _rule_acs_structural "SBS-ACS-007" "high"),
  ("SBS-ACS-008", _rule_acs_structural "SBS-ACS-008" "high"),
  ("SBS-ACS-009", _rule_acs_structural "SBS-ACS-009" "moderate"),
  ("SBS-ACS-010", _rule_acs_structural "SBS-ACS-010" "moderate"),
  ("SBS-ACS-011", _rule_acs_structural "SBS-ACS-011" "high"),
  ("SBS-ACS-012", _rule_acs_structural "SBS-ACS-012" "moderate"),
  ("SBS-INT-001", _rule_not_collectable "SBS-INT-001" "moderate" "Browser extension inventory requires manual review"),
  ("SBS-INT-002", _rule_int_002),
  ("SBS-INT-003", _rule_int_003),
  ("SBS-INT-004", _rule_int_004),
  ("SBS-OAUTH-001", _rule_oauth_001),
  ("SBS-OAUTH-002", _rule_oauth_002),
  ("SBS-OAUTH-003", _rule_oauth_structural "SBS-OAUTH-003" "high"),
  ("SBS-OAUTH-004", _rule_oauth_structural "SBS-OAUTH-004" "moderate"),
  ("SBS-DATA-001", _rule_data_structural "SBS-DATA-001" "high"),
  ("SBS-DATA-002", _rule_data_structural "SBS-DATA-002" "moderate"),
  ("SBS-DATA-003", _rule_data_structural "SBS-DATA-003" "high"),
  ("SBS-DATA-004", _rule_data_004),
  ("SBS-SECCONF-001", _rule_secconf_001),
  ("SBS-SECCONF-002", _rule_secconf_002),
  ("SBS-DEP-001", _rule_not_collectable "SBS-DEP-001" "high" _DEP_NA),
  ("SBS-DEP-002", _rule_not_collectable "SBS-DEP-002" "high" _DEP_NA),
  ("SBS-DEP-003", _rule_dep_003),
  ("SBS-DEP-005", _rule_not_collectable "SBS-DEP-005" "critical" _DEP_NA),
  ("SBS-DEP-006", _rule_not_collectable "SBS-DEP-006" "high" _DEP_NA),
  ("SBS-CODE-001", _rule_not_collectable "SBS-CODE-001" "moderate" _CODE_NA),
  ("SBS-CODE-002", _rule_not_collectable "SBS-CODE-002" "moderate" _CODE_NA),
  ("SBS-CODE-003", _rule_not_collectable "SBS-CODE-003" "high" _CODE_NA),
  ("SBS-CODE-004", _rule_not_collectable "SBS-CODE-004" "critical" _CODE_NA),
  ("SBS-CPORTAL-001", _rule_not_collectable "SBS-CPORTAL-001" "critical" _PORTAL_NA),
  ("SBS-CPORTAL-002", _rule_not_collectable "SBS-CPORTAL-002" "critical" _PORTAL_NA),
  ("SBS-FILE-001", _rule_not_collectable "SBS-FILE-001" "moderate" _FILE_NA),
  ("SBS-FILE-002", _rule_not_collectable "SBS-FILE-002" "moderate" _FILE_NA),
  ("SBS-FILE-003", _rule_not_collectable "SBS-FILE-003" "moderate" _FILE_NA),
  ("SBS-FDNS-001", _rule_not_collectable "SBS-FDNS-001" "moderate" _FDNS_NA)]

/-- Dry-run override table: control id → (status, observed_value, remediation). -/
def _DRY_RUN_OVERRIDES : List (String × (String × String × String)) := [
  ("SBS-AUTH-001", ("fail", "No SSO providers configured [dry-run]", "Configure org-wide SSO.")),
  ("SBS-AUTH-002", ("partial", "SSO not configured — bypass governance N/A [dry-run]", "")),
  ("SBS-AUTH-003", ("fail", "No Login IP Ranges found [dry-run]", "Add Login IP Ranges to privileged profiles.")),
  ("SBS-AUTH-004", ("partial", "MFA org settings unconfirmed [dry-run]", "Verify MFA in Setup > Identity Verification.")),
  ("SBS-ACS-001", ("fail", "8 admin profiles with ModifyAllData [dry-run]", "Reduce to ≤2 admin profiles.")),
  ("SBS-ACS-002", ("partial", "6 elevated permission sets [dry-run]", "Document justification for all elevated sets.")),
  ("SBS-ACS-003", ("fail", "All 4 connected apps allow all users [dry-run]", "Apply admin-approved policy.")),
  ("SBS-ACS-004", ("partial", "2 super admin-equivalent profiles [dry-run]", "Document justification.")),
  ("SBS-ACS-005", ("partial", "Requires profile audit [dry-run]", "Run detailed profile review.")),
  ("SBS-ACS-006", ("partial", "Requires permission set audit [dry-run]", "Audit Use Any API Client grants.")),
  ("SBS-ACS-007", ("partial", "Non-human identity inventory required [dry-run]", "Build NHI inventory.")),
  ("SBS-ACS-008", ("partial", "NHI privilege scope requires audit [dry-run]", "Restrict NHI permissions.")),
  ("SBS-ACS-009", ("partial", "Compensating controls require manual review [dry-run]", "")),
  ("SBS-ACS-010", ("fail", "No access review process evidence found [dry-run]", "Implement quarterly access reviews.")),
  ("SBS-ACS-011", ("partial", "Change governance process requires verification [dry-run]", "")),
  ("SBS-ACS-012", ("partial", "Login hour restrictions require profile audit [dry-run]", "")),
  ("SBS-INT-002", ("fail", "3 active remote sites have protocol security disabled [dry-run]", "Enable protocol security.")),
  ("SBS-INT-003", ("pass", "12 Named Credentials found [dry-run]", "")),
  ("SBS-INT-004", ("partial", "5 event types found but no API-specific types [dry-run]", "Enable ApiEvent type.")),
  ("SBS-OAUTH-001", ("fail", "3 connected apps allow all users [dry-run]", "Restrict to admin-approved.")),
  ("SBS-OAUTH-002", ("partial", "2/5 apps lack admin-approved restriction [dry-run]", "Apply policy to all apps.")),
  ("SBS-OAUTH-003", ("partial", "Criticality classification not documented [dry-run]", "Classify all connected apps.")),
  ("SBS-OAUTH-004", ("partial", "Vendor due diligence documentation missing [dry-run]", "Complete vendor assessments.")),
  ("SBS-DATA-001", ("partial", "Field scan required [dry-run]", "Run data classification scan.")),
  ("SBS-DATA-002", ("partial", "Field inventory requires SOQL audit [dry-run]", "")),
  ("SBS-DATA-003", ("partial", "Backup process not verifiable via API [dry-run]", "Verify backup schedule.")),
  ("SBS-DATA-004", ("fail", "0 fields with history tracking enabled [dry-run]", "Enable field history tracking.")),
  ("SBS-SECCONF-001", ("partial", "Health Check score: 64/100 [dry-run]", "Remediate to reach ≥80%.")),
  ("SBS-SECCONF-002", ("partial", "Score 64/100 — deviations remain [dry-run]", "Address all failing items.")),
  ("SBS-DEP-003", ("fail", "No Transaction Security Policies found [dry-run]", "Create TSPs for high-risk events.")),
  ("SBS-CODE-003", ("partial", "Apex logging requires code audit [dry-run]", "")),
  ("SBS-CODE-004", ("fail", "Sensitive data in logs cannot be ruled out [dry-run]", "Audit all Apex log statements."))]

/-- RULES.get(cid): dict lookup; an unhashable key raises TypeError, any
other non-registered key misses. -/
def rulesGet (cid : Json) : Except String (Option Rule) :=
  if !hashable cid then .error "TypeError: unhashable key"
  else .ok (match cid with | .str s => assocLookup RULES s | _ => none)

/-- severity = (control.get("risk_level") or "moderate").lower() -/
def severityOfControl (control : Json) : Except String String := do
  let rl ← dictGet control "risk_level" .null
  let v := if truthy rl then rl else .str "moderate"
  match v with
  | .str s => .ok (pyLower s)
  | _ => .error "AttributeError: lower on non-str"

/-- The body of run_assessment's per-control loop: resolve the rule by the
entry's control_id, fall back to a "No assessment rule defined"
not_applicable finding, apply the dry-run override table in dry-run mode,
and serialise. -/
def assessControl (raw : Option Obj) (dry_run : Bool) (org env date_str : String)
    (control : Json) : Except String Json := do
  let cid ← dictGet control "control_id" (.str "")
  let severity ← severityOfControl control
  let finding ←
    match (← rulesGet cid) with
    | none => pure (_na cid severity "No assessment rule defined")
    | some rule =>
      if dry_run then
        match (match cid with | .str s => assocLookup _DRY_RUN_OVERRIDES s | _ => none) with
        | some (status, observed, remediation) =>
          pure { control_id := cid, status, severity, observed_value := observed,
                 remediation, owner := "Business Security Services", due_date := "" }
        | none => rule []
      else rule (raw.getD [])
  pure (finding.to_dict org env date_str)

/-- run_assessment: one serialised finding per catalog control, in catalog
order.  raw = None and dry-run are handled exactly as in the source. -/
def run_assessment (raw : Option Obj) (controls : List Json) (dry_run : Bool)
    (org env date_str : String) : Except String (List Json) :=
  controls.mapM (assessControl raw dry_run org env date_str)

/-- The control ids registered with _rule_not_collectable. -/
def notCollectableIds : List String := [
  "SBS-INT-001", "SBS-DEP-001", "SBS-DEP-002", "SBS-DEP-005", "SBS-DEP-006",
  "SBS-CODE-001", "SBS-CODE-002", "SBS-CODE-003", "SBS-CODE-004",
  "SBS-CPORTAL-001", "SBS-CPORTAL-002",
  "SBS-FILE-001", "SBS-FILE-002", "SBS-FILE-003", "SBS-FDNS-001"]

/-- A catalog entry the per-control loop handles without raising: a dict
whose control_id value is hashable (the RULES dict lookup would raise on a
list/dict key) and whose risk_level, when truthy, is a string (so .lower()
does not raise). -/
def wfControl (c : Json) : Bool :=
  match c with
  | .obj fs =>
    hashable ((jsonLookup fs "control_id").getD (.str "")) &&
      (match jsonLookup fs "risk_level" with
       | none => true
       | some v => !truthy v || (match v with | .str _ => true | _ => false))
  | _ => false

/-- The control_id value run_assessment reads off a catalog entry. -/
def controlCid (c : Json) : Json :=
  match c with
  | .obj fs => (jsonLookup fs "control_id").getD (.str "")
  | _ => .str ""

/-- The status string of a serialised finding. -/
def findingStatusOf (j : Json) : Option Json :=
  match j with
  | .obj fs => jsonLookup fs "status"
  | _ => none

/-- The control_id of a serialised finding. -/
def findingCidOf (j : Json) : Option Json :=
  match j with
  | .obj fs => jsonLookup fs "control_id"
  | _ => none

/-- A SOQL-result value both _total and _records handle without raising:
totalSize (when present) int-convertible, records (when present) iterable.
Non-dict values are safe — both helpers return their default on them. -/
def wfSoqlVal (v : Json) : Bool :=
  (match _total v with | .ok _ => true | .error _ => false) &&
    (match _records v with | .ok _ => true | .error _ => false)

/-- Additional condition for event_log_types: every record's truthy
EventType value is a string (set insertion rejects unhashables, .upper()
rejects non-strings). -/
def wfEventLogVal (v : Json) : Bool :=
  wfSoqlVal v &&
    (match _records v with
     | .ok rs => rs.all fun r =>
        match jsonLookup r "EventType" with
        | none => true
        | some t => !truthy t || (match t with | .str _ => true | _ => false)
     | .error _ => false)

/-- Additional condition for health_check: the first record's Score value
(defaulting to 0) is number-comparable (the two score < threshold
comparisons raise on anything else). -/
def wfHealthVal (v : Json) : Bool :=
  wfSoqlVal v &&
    (match _records v with
     | .ok [] => true
     | .ok (rec :: _) =>
       (match (jsonLookup rec "Score").getD (.num 0) with
        | .num _ => true | .bool _ => true | _ => false)
     | .error _ => false)

/-- The keys the rules read as SOQL results from their scope dicts. -/
def soqlKeys : List String := [
  "sso_providers", "login_ip_ranges", "mfa_org_settings", "admin_profiles",
  "elevated_permission_sets", "connected_apps", "remote_site_settings",
  "named_credentials", "field_history_retention", "connected_app_oauth_policies",
  "policies"]

/-- A well-typed scope value: either falsy (the rule degrades to
not_applicable) or a dict whose rule-read values are well-typed. -/
def wfScopeVal (v : Json) : Bool :=
  !truthy v ||
    (match v with
     | .obj fs =>
       (soqlKeys.all fun k => wfSoqlVal ((jsonLookup fs k).getD (.obj []))) &&
         wfEventLogVal ((jsonLookup fs "event_log_types").getD (.obj [])) &&
         wfHealthVal ((jsonLookup fs "health_check").getD (.obj []))
     | _ => false)

/-- The scope names the rules request from _scope. -/
def scopeNames : List String := [
  "auth", "access", "integrations", "event-monitoring", "oauth", "secconf",
  "transaction-security"]

/-- A well-typed raw collector payload: every scope extraction (including
the single-scope fallback) yields a well-typed scope value. -/
def wfRaw (raw : Obj) : Bool :=
  scopeNames.all fun n => wfScopeVal (_scope raw n)

end OscalAssess

namespace OscalGapMap

open SaasSec

/-! Shallow embedding of the routing loop of src/scripts/oscal_gap_map.py
(main, lines 152-221).  The loaded tables are parameters: controls_by_id and
map_by_legacy are string-keyed dicts as main builds them, and the two SSCF
crosswalk tables are the dicts read from the mapping YAML. -/

/-- Lookup with an arbitrary Python value as key in a string-keyed dict:
an unhashable key raises TypeError, any other non-string key just misses. -/
def dictGetJsonKey (d : Obj) (key : Json) : Except String (Option Json) :=
  if !hashable key then .error "TypeError: unhashable key"
  else .ok (match key with | .str s => jsonLookup d s | _ => none)

/-- sscf_overrides.get(sbs_control_id) or
sscf_defaults_by_category.get(sbs.get("category", "")) or []
(Python or: first truthy operand, short-circuiting). -/
def sscfMappingsFor (sscf_overrides sscf_defaults_by_category : Obj)
    (sbs_control_id : String) (sbs : Obj) : Except String Json := do
  let overrideVal : Option Json :=
    match jsonLookup sscf_overrides sbs_control_id with
    | some v => if truthy v then some v else none
    | none => none
  match overrideVal with
  | some v => pure v
  | none =>
    let category := (jsonLookup sbs "category").getD (.str "")
    match (← dictGetJsonKey sscf_defaults_by_category category) with
    | some v => if truthy v then pure v else pure (.arr [])
    | none => pure (.arr [])

/-- The mapped-item dict shared by the direct and the crosswalk branch;
notes and confidence differ between the two call sites. -/
def mappedItem (legacy_control_id sbs_control_id : String) (sbs finding : Obj)
    (mapping_notes mapping_confidence sscf_mappings : Json) : Obj := [
  ("legacy_control_id", .str legacy_control_id),
  ("sbs_control_id", .str sbs_control_id),
  ("sbs_title", (jsonLookup sbs "title").getD (.str "")),
  ("status", (jsonLookup finding "status").getD (.str "")),
  ("severity", (jsonLookup finding "severity").getD (.str "")),
  ("owner", (jsonLookup finding "owner").getD (.str "")),
  ("due_date", (jsonLookup finding "due_date").getD (.str "")),
  ("remediation", (jsonLookup finding "remediation").getD (.str "")),
  ("evidence_ref", (jsonLookup finding "evidence_ref").getD (.str "")),
  ("mapping_notes", mapping_notes),
  ("mapping_confidence", mapping_confidence),
  ("sscf_mappings", sscf_mappings)]

/-- Destination of one finding: exactly the three continue-terminated
branches of the routing loop. -/
inductive Route where
  | mapped (item : Obj)
  | unmapped (item : Obj)
  | invalid (entry : String)

def Route.mappedItemOf : Route → Option Obj
  | .mapped i => some i
  | _ => none

def Route.unmappedItemOf : Route → Option Obj
  | .unmapped i => some i
  | _ => none

def Route.invalidEntryOf : Route → Option String
  | .invalid e => some e
  | _ => none

def routeFinding (controls_by_id map_by_legacy : List (String × Obj)) (sscf_overrides sscf_defaults_by_category : Obj)
    (finding : Obj) : Except String Route := do
  let legacy_control_id := pyStrip (pyStrOf ((jsonLookup finding "control_id").getD (.str "")))
  if pyStartsWith legacy_control_id "SBS-" then
    let sbs_control_id := legacy_control_id
    match assocLookup controls_by_id sbs_control_id with
    | some sbs =>
      if sbs.isEmpty then
        return .invalid (legacy_control_id ++ " -> " ++ sbs_control_id ++ " (SBS control not found in imported catalog)")
      let sscf_mappings ← sscfMappingsFor sscf_overrides sscf_defaults_by_category sbs_control_id sbs
      return .mapped (mappedItem legacy_control_id sbs_control_id sbs finding
        (.str "Direct collector mapping (SBS control ID emitted by collector).") (.str "high") sscf_mappings)
    | none =>
      return .invalid (legacy_control_id ++ " -> " ++ sbs_control_id ++ " (SBS control not found in imported catalog)")
  else
    match assocLookup map_by_legacy legacy_control_id with
    | some map_row =>
      if map_row.isEmpty then
        return .unmapped [
          ("legacy_control_id", .str legacy_control_id),
          ("status", (jsonLookup finding "status").getD (.str "")),
          ("severity", (jsonLookup finding "severity").getD (.str ""))]
      let sbs_control_id := pyStrip (pyStrOf ((jsonLookup map_row "sbs_control_id").getD (.str "")))
      match assocLookup controls_by_id sbs_control_id with
      | some sbs =>
        if sbs.isEmpty then
          return .invalid (legacy_control_id ++ " -> " ++ sbs_control_id ++ " (not found in imported catalog)")
        let sscf_mappings ← sscfMappingsFor sscf_overrides sscf_defaults_by_category sbs_control_id sbs
        return .mapped (mappedItem legacy_control_id sbs_control_id sbs finding
          ((jsonLookup map_row "notes").getD (.str ""))
          ((jsonLookup map_row "mapping_confidence").getD (.str "unrated")) sscf_mappings)
      | none =>
        return .invalid (legacy_control_id ++ " -> " ++ sbs_control_id ++ " (not found in imported catalog)")
    | none =>
      return .unmapped [
        ("legacy_control_id", .str legacy_control_id),
        ("status", (jsonLookup finding "status").getD (.str "")),
        ("severity", (jsonLookup finding "severity").getD (.str ""))]

/-- The routing loop: each finding is appended to exactly one of
mapped_items, unmapped_items, invalid_mapping_entries, in finding order. -/
def mapFindings (controls_by_id map_by_legacy : List (String × Obj)) (sscf_overrides sscf_defaults_by_category : Obj) :
    List Obj → Except String (List Obj × List Obj × List String)
  | [] => .ok ([], [], [])
  | finding :: rest => do
    let r ← routeFinding controls_by_id map_by_legacy sscf_overrides sscf_defaults_by_category finding
    let (m, u, i) ← mapFindings controls_by_id map_by_legacy sscf_overrides sscf_defaults_by_category rest
    match r with
    | .mapped item => .ok (item :: m, u, i)
    | .unmapped item => .ok (m, item :: u, i)
    | .invalid e => .ok (m, u, e :: i)


/-- The context condition under which the routing loop cannot raise: every
loaded catalog control's category value is hashable (it is a string in the
shipped catalog), so the defaults_by_category lookup never raises. -/
def catalogCategoriesHashable (controls_by_id : List (String × Obj)) : Bool :=
  controls_by_id.all fun kv => hashable ((jsonLookup kv.2 "category").getD (.str ""))

end OscalGapMap

namespace SscfBenchmark

open SaasSec

/-! Shallow embedding of src/skills/sscf_benchmark/sscf_benchmark.py. -/

/-- round(x, 4).  Modelled as exact rational rounding to the nearest
1/10000 (Python rounds binary floats, with banker's tie-breaking; no value
the scorer produces sits exactly on a tie of the binary representation). -/
def round4 (q : ℚ) : ℚ := (round (q * 10000) : ℤ) / 10000

/-- _domain_status: the two-threshold banding rule. -/
def _domain_status (score : ℚ) (threshold : ℚ) : String :=
  if score ≥ threshold then "green"
  else if score ≥ 0.50 then "amber"
  else "red"

structure StatusCounts where
  passC : Nat
  partialC : Nat
  failC : Nat
  naC : Nat

/-- One step of the counting loop of _score_findings: item.get("status", "")
(raises on a non-dict item), then a membership test in the counts dict
(raises on an unhashable status), then increment on the four known keys. -/
def bumpCount (c : StatusCounts) : Json → StatusCounts
  | .str "pass" => { c with passC := c.passC + 1 }
  | .str "partial" => { c with partialC := c.partialC + 1 }
  | .str "fail" => { c with failC := c.failC + 1 }
  | .str "not_applicable" => { c with naC := c.naC + 1 }
  | _ => c

def countStatuses : List Json → StatusCounts → Except String StatusCounts
  | [], c => .ok c
  | item :: rest, c => do
    let status ← dictGet item "status" (.str "")
    if !hashable status then .error "TypeError: unhashable type"
    else countStatuses rest (bumpCount c status)

/-- _score_findings: (pass, partial, fail, not_applicable, score). -/
def _score_findings (items : List Json) : Except String (Nat × Nat × Nat × Nat × ℚ) := do
  let c ← countStatuses items ⟨0, 0, 0, 0⟩
  let scoreable := c.passC + c.partialC + c.failC
  let score : ℚ :=
    if scoreable = 0 then 1
    else ((c.passC : ℚ) * 1.0 + (c.partialC : ℚ) * 0.5) / (scoreable : ℚ)
  .ok (c.passC, c.partialC, c.failC, c.naC, round4 score)

structure DomainResult where
  domain : String
  findings_count : Nat
  passN : Nat
  partialN : Nat
  failN : Nat
  naN : Nat
  score : ℚ
  status : String

/-- The per-domain slice of run_benchmark (lines 115-155): flatten the
domain's per-control item lists, score them, band the score.  (The
per-control drill-down detail is presentation-only and not modelled.) -/
def scoreDomain (domain : String) (controls : List (String × List Json)) (threshold : ℚ) :
    Except String DomainResult := do
  let domain_items := controls.foldr (fun kv acc => kv.2 ++ acc) []
  let (p, r, f, na, score) ← _score_findings domain_items
  pure { domain, findings_count := domain_items.length, passN := p, partialN := r,
         failN := f, naN := na, score, status := _domain_status score threshold }

/-- The scoring stage of run_benchmark (lines 114-173) over the grouped
domain → control → items table: per-domain results, then the overall score
over all distributed items, each banded with the same _domain_status. -/
def runBenchmarkScores (domain_controls : List (String × List (String × List Json)))
    (threshold : ℚ) : Except String (List DomainResult × ℚ × String) := do
  let domain_results ← domain_controls.mapM fun kv => scoreDomain kv.1 kv.2 threshold
  let all_items := domain_controls.foldr
    (fun kv acc => (kv.2.foldr (fun c a => c.2 ++ a) []) ++ acc) []
  let scored ← _score_findings all_items
  let overall_score := scored.2.2.2.2
  pure (domain_results, round4 overall_score, _domain_status overall_score threshold)

/-- status-field test used to phrase the P/R/F/N counts of the claims. -/
def itemHasStatus (s : String) (item : Json) : Bool :=
  match item with
  | .obj fs =>
    match jsonLookup fs "status" with
    | some (.str t) => t = s
    | _ => false
  | _ => false

/-- The inputs on which the counting loop of _score_findings completes:
every item is a dict and its status value is hashable. -/
def scoreInputOk (items : List Json) : Bool :=
  items.all fun item =>
    match item with
    | .obj fs => hashable ((jsonLookup fs "status").getD (.str ""))
    | _ => false

end SscfBenchmark

namespace HarnessLoop

open SaasSec

/-! Shallow embedding of the gate and tool-error policy of
src/harness/loop.py (and the dispatch contract of src/harness/tools.py). -/

/-- What reading state["gap_analysis"] yields: no tracked path, a tracked
path whose file does not exist, a file json.loads rejects, or parsed
content. -/
inductive GapArtifact where
  | noPath
  | missingFile
  | unreadable
  | content (doc : Json)

/-- f.get("status") == "fail" and f.get("severity") == "critical". -/
def findingMatches (g : Obj) : Bool :=
  (match jsonLookup g "status" with | some (.str "fail") => true | _ => false)
    && (match jsonLookup g "severity" with | some (.str "critical") => true | _ => false)

/-- The comprehension [f["control_id"] for f in findings if ...]: a non-dict
element raises at the condition, a matching element without control_id
raises at the subscript; both are swallowed by the surrounding
try/except. -/
def collectCriticalFails : List Json → Except Unit (List Json)
  | [] => .ok []
  | f :: rest =>
    match f with
    | .obj g =>
      if findingMatches g then
        match jsonLookup g "control_id" with
        | some cid => do
          let others ← collectCriticalFails rest
          .ok (cid :: others)
        | none => .error ()
      else collectCriticalFails rest
    | _ => .error ()

/-- json.loads output → data.get("findings", []) → the comprehension.
Iterating a non-list findings value raises unless it is an empty string or
empty dict (which iterate to nothing); a non-dict document raises at
data.get. -/
def extractFromDoc (doc : Json) : Except Unit (List Json) :=
  match doc with
  | .obj fields =>
    match (jsonLookup fields "findings").getD (.arr []) with
    | .arr xs => collectCriticalFails xs
    | .str s => if s.data.isEmpty then .ok [] else .error ()
    | .obj g => if g.isEmpty then .ok [] else .error ()
    | _ => .error ()
  | _ => .error ()

/-- _extract_critical_fails: [] on an unset path, a missing file, or any
exception while reading/parsing/scanning the artifact. -/
def _extract_critical_fails : GapArtifact → List Json
  | .noPath => []
  | .missingFile => []
  | .unreadable => []
  | .content doc => match extractFromDoc doc with | .ok l => l | .error _ => []

/-- Outcome of the post-loop phase of _run_loop plus the final write in
run(): sys.exit(2) raises SystemExit past both the save_assessment call and
run()'s loop_result.json write, so a blocked run persists neither. -/
structure RunEnd where
  exitCode : Option Nat
  memorySaved : Bool
  loopResultWritten : Bool
  criticalFails : List Json

/-- Lines 240-260 of loop.py followed by the result write in run():
extract the critical fails, gate, then either exit 2 or persist. -/
def gateAndFinish (gap : GapArtifact) (dry_run approve_critical mem_available : Bool) : RunEnd :=
  let critical_fails := _extract_critical_fails gap
  if !critical_fails.isEmpty && !dry_run && !approve_critical then
    { exitCode := some 2, memorySaved := false, loopResultWritten := false,
      criticalFails := critical_fails }
  else
    { exitCode := none, memorySaved := mem_available, loopResultWritten := true,
      criticalFails := critical_fails }

/-- Minimal json.dumps string escaping (quote and backslash; the payloads
the theorems touch contain no control characters). -/
def jsonEscapeChar (c : Char) : List Char :=
  if c = '"' then ['\\', '"'] else if c = '\\' then ['\\', '\\'] else [c]

def jsonDumpStr (s : String) : String :=
  ⟨'"' :: (s.data.foldr (fun c acc => jsonEscapeChar c ++ acc) ['"'])⟩

/-- json.dumps of the structured error payload of _handle_tool_error, with
Python's default separators. -/
def dumpsErrorPayload (tool msg : String) : String :=
  "\x7b\"status\": \"error\", \"tool\": " ++ jsonDumpStr tool
    ++ ", \"message\": " ++ jsonDumpStr msg ++ "\x7d"

def _CRITICAL_TOOLS : List String := ["sfdc_connect_collect", "oscal_assess_assess"]

/-- _handle_tool_error: critical-path tools re-raise (halting the run),
every other tool failure becomes the structured JSON error payload fed back
to the model. -/
def _handle_tool_error (tool_name : String) (_tool_input : Obj) (error : String) :
    Except String String :=
  if tool_name ∈ _CRITICAL_TOOLS then
    .error ("Critical tool '" ++ tool_name
      ++ "' failed — aborting to prevent false-pass assessment.\n" ++ error)
  else
    .ok (dumpsErrorPayload tool_name error)

/-- One tool_use block in _run_loop (lines 204-207): dispatch, and on a
dispatch exception defer to _handle_tool_error; a re-raise from the handler
propagates out of _run_loop. -/
def processToolBlock (tool_name : String) (tool_input : Obj)
    (dispatchResult : Except String String) : Except String String :=
  match dispatchResult with
  | .ok s => .ok s
  | .error e => _handle_tool_error tool_name tool_input e

/-- The per-turn block loop (lines 198-230): each block's result string is
appended to tool_results and the loop continues; an uncaught handler
exception aborts the whole turn (and with it the run). -/
def processToolBlocks : List (String × Obj × Except String String) →
    Except String (List String)
  | [] => .ok []
  | (n, inp, r) :: rest => do
    let s ← processToolBlock n inp r
    let others ← processToolBlocks rest
    .ok (s :: others)


/-- One findings-array entry the gate scan handles without raising: a dict
which, when it matches the critical/fail filter, carries a control_id. -/
def findingEntryOk (f : Json) : Bool :=
  match f with
  | .obj g => !findingMatches g || (jsonLookup g "control_id").isSome
  | _ => false

def findingEntryMatches (f : Json) : Bool :=
  match f with
  | .obj g => findingMatches g
  | _ => false

/-- The artifact documents whose findings the gate scan processes without
an exception: a dict whose findings value (defaulting to []) is a list of
well-formed entries. -/
def findingsWellFormed (doc : Json) : Bool :=
  match doc with
  | .obj fields =>
    match (jsonLookup fields "findings").getD (.arr []) with
    | .arr xs => xs.all findingEntryOk
    | _ => false
  | _ => false

/-- The artifact holds at least one finding with status=fail and
severity=critical. -/
def containsCriticalFinding (doc : Json) : Bool :=
  match doc with
  | .obj fields =>
    match (jsonLookup fields "findings").getD (.arr []) with
    | .arr xs => xs.any findingEntryMatches
    | _ => false
  | _ => false

end HarnessLoop

namespace SaasSec

/-! Shared helper lemmas. -/

theorem assocLookup_mem {α : Type} {l : List (String × α)} {k : String} {v : α}
    (h : assocLookup l k = some v) : (k, v) ∈ l := by
  induction l with
  | nil => simp [assocLookup] at h
  | cons p rest ih =>
    obtain ⟨pk, pv⟩ := p
    by_cases hk : pk = k
    · subst hk
      simp [assocLookup] at h
      simp [h]
    · simp [assocLookup, hk] at h
      exact List.mem_cons_of_mem _ (ih h)

theorem jsonLookup_eq_assocLookup (l : List (String × Json)) (k : String) :
    jsonLookup l k = assocLookup l k := by
  induction l with
  | nil => rfl
  | cons p rest ih => simp [jsonLookup, assocLookup, ih]

@[simp] theorem exceptBind_ok {ε α β : Type} (x : α) (f : α → Except ε β) :
    (Except.ok x >>= f) = f x := rfl

@[simp] theorem exceptBind_error {ε α β : Type} (e : ε) (f : α → Except ε β) :
    ((Except.error e : Except ε α) >>= f) = Except.error e := rfl

@[simp] theorem exceptPure_eq_ok {ε α : Type} (x : α) :
    (pure x : Except ε α) = Except.ok x := rfl

@[simp] theorem exceptMap_ok {ε α β : Type} (f : α → β) (x : α) :
    (Except.ok x : Except ε α).map f = Except.ok (f x) := rfl

@[simp] theorem exceptMap_error {ε α β : Type} (f : α → β) (e : ε) :
    (Except.error e : Except ε α).map f = Except.error e := rfl

end SaasSec

open SaasSec OscalAssess OscalGapMap SscfBenchmark HarnessLoop

/-- Claim C10: with a non-empty raw dict that lacks the requested scope name,
_scope returns the whole dict as that scope's data, and an assessment rule
(here SBS-AUTH-001) invoked with data collected for a different scope
evaluates that unrelated data as if it were its own — producing a fail
finding from absent SSO data — instead of degrading to not_applicable. -/
theorem C10_scope_fallback (raw : Obj) (hne : raw ≠ [])
    (hauth : jsonLookup raw "auth" = none) :
    _scope raw "auth" = .obj raw ∧
      (jsonLookup raw "sso_providers" = none →
        _rule_auth_001 raw = .ok (Finding.make (.str "SBS-AUTH-001") "fail" "critical"
          "No SAML SSO providers configured — org-wide SSO not enforced."
          "Configure and enable at least one SAML SSO provider in Setup > Single Sign-On Settings.")) := by
  have hscope : _scope raw "auth" = .obj raw := by
    simp [_scope, hauth, hne]
  refine ⟨hscope, fun hsso => ?_⟩
  have hempty : raw.isEmpty = false := by
    simp [List.isEmpty_iff, hne]
  simp [_rule_auth_001, hscope, truthy, hempty, dictGet, hsso, _records, jsonLookup]

/-- Witness for C10 at the concrete raw dict collected for the access
scope. -/
theorem C10_scope_fallback_witness :
    _scope [("access", .obj [])] "auth" = .obj [("access", .obj [])] ∧
      (jsonLookup [("access", .obj [])] "sso_providers" = none →
        _rule_auth_001 [("access", .obj [])] = .ok (Finding.make (.str "SBS-AUTH-001") "fail" "critical"
          "No SAML SSO providers configured — org-wide SSO not enforced."
          "Configure and enable at least one SAML SSO provider in Setup > Single Sign-On Settings.")) :=
  C10_scope_fallback [("access", .obj [])] (by simp) rfl

/-- Claim C2: a dispatch failure on a critical-path tool (sfdc_connect_collect
or oscal_assess_assess) re-raises and aborts the whole block loop with the
error surfaced, while a failure on any of the downstream tools
(oscal_gap_map, sscf_benchmark_benchmark) is converted into the structured
JSON payload with status "error", the tool name and the message, and the
block loop continues. -/
theorem C2_tool_error_policy (tool_name : String) (inp : Obj) (msg : String) :
    ((tool_name = "sfdc_connect_collect" ∨ tool_name = "oscal_assess_assess") →
      processToolBlock tool_name inp (.error msg) =
        .error ("Critical tool '" ++ tool_name
          ++ "' failed — aborting to prevent false-pass assessment.\n" ++ msg) ∧
      ∀ blocks, processToolBlocks ((tool_name, inp, .error msg) :: blocks) =
        .error ("Critical tool '" ++ tool_name
          ++ "' failed — aborting to prevent false-pass assessment.\n" ++ msg)) ∧
    ((tool_name = "oscal_gap_map" ∨ tool_name = "sscf_benchmark_benchmark") →
      processToolBlock tool_name inp (.error msg) = .ok (dumpsErrorPayload tool_name msg) ∧
      ∀ blocks, processToolBlocks ((tool_name, inp, .error msg) :: blocks) =
        (processToolBlocks blocks).map (fun others => dumpsErrorPayload tool_name msg :: others)) := by
  constructor
  · rintro (rfl | rfl) <;>
    · refine ⟨by simp [processToolBlock, _handle_tool_error, _CRITICAL_TOOLS], fun blocks => ?_⟩
      simp [processToolBlocks, processToolBlock, _handle_tool_error, _CRITICAL_TOOLS, Except.bind]
  · rintro (rfl | rfl) <;>
    · refine ⟨by simp [processToolBlock, _handle_tool_error, _CRITICAL_TOOLS], fun blocks => ?_⟩
      cases h : processToolBlocks blocks <;>
        simp [processToolBlocks, processToolBlock, _handle_tool_error, _CRITICAL_TOOLS, h,
          Except.map, Except.bind]

/-- Witness for C2 at the concrete tools oscal_gap_map (payload, loop goes
on) and sfdc_connect_collect (halt). -/
theorem C2_tool_error_policy_witness :
    processToolBlock "oscal_gap_map" [] (.error "exit 1") =
      .ok (dumpsErrorPayload "oscal_gap_map" "exit 1") ∧
    processToolBlocks [("sfdc_connect_collect", [], .error "exit 1")] =
      .error ("Critical tool '" ++ "sfdc_connect_collect"
        ++ "' failed — aborting to prevent false-pass assessment.\n" ++ "exit 1") :=
  ⟨((C2_tool_error_policy "oscal_gap_map" [] "exit 1").2 (Or.inl rfl)).1,
   ((C2_tool_error_policy "sfdc_connect_collect" [] "exit 1").1 (Or.inl rfl)).2 []⟩


theorem bumpCount_str (c : StatusCounts) (t : String) :
    bumpCount c (.str t) =
      { passC := c.passC + (if t = "pass" then 1 else 0),
        partialC := c.partialC + (if t = "partial" then 1 else 0),
        failC := c.failC + (if t = "fail" then 1 else 0),
        naC := c.naC + (if t = "not_applicable" then 1 else 0) } := by
  unfold bumpCount
  split <;> simp_all

theorem countStatuses_spec (items : List Json) (c : StatusCounts)
    (h : scoreInputOk items = true) :
    countStatuses items c = .ok
      ⟨c.passC + items.countP (itemHasStatus "pass"),
       c.partialC + items.countP (itemHasStatus "partial"),
       c.failC + items.countP (itemHasStatus "fail"),
       c.naC + items.countP (itemHasStatus "not_applicable")⟩ := by
  induction items generalizing c with
  | nil => simp [countStatuses]
  | cons item rest ih =>
    rw [scoreInputOk, List.all_cons, Bool.and_eq_true] at h
    obtain ⟨h1, h2⟩ := h
    have h2' : scoreInputOk rest = true := h2
    cases item with
    | obj fs =>
      replace h1 : hashable ((jsonLookup fs "status").getD (Json.str "")) = true := h1
      cases hsv : jsonLookup fs "status" with
      | none =>
        simp only [countStatuses, dictGet, hsv, Option.getD, exceptBind_ok, hashable,
          Bool.not_true, Bool.false_eq_true, if_false]
        rw [ih _ h2', bumpCount_str]
        simp [itemHasStatus, hsv, List.countP_cons]
      | some v =>
        rw [hsv] at h1
        simp only [Option.getD] at h1
        cases v with
        | str t =>
          simp only [countStatuses, dictGet, hsv, Option.getD, exceptBind_ok, hashable,
            Bool.not_true, Bool.false_eq_true, if_false]
          rw [ih _ h2', bumpCount_str]
          simp only [List.countP_cons, itemHasStatus, hsv, Except.ok.injEq,
            StatusCounts.mk.injEq, decide_eq_true_eq]
          refine ⟨?_, ?_, ?_, ?_⟩ <;> (split_ifs with hh <;> omega)
        | null =>
          simp only [countStatuses, dictGet, hsv, Option.getD, exceptBind_ok, hashable,
            Bool.not_true, Bool.false_eq_true, if_false]
          rw [ih _ h2']
          simp [bumpCount, itemHasStatus, hsv, List.countP_cons]
        | bool b =>
          simp only [countStatuses, dictGet, hsv, Option.getD, exceptBind_ok, hashable,
            Bool.not_true, Bool.false_eq_true, if_false]
          rw [ih _ h2']
          simp [bumpCount, itemHasStatus, hsv, List.countP_cons]
        | num n =>
          simp only [countStatuses, dictGet, hsv, Option.getD, exceptBind_ok, hashable,
            Bool.not_true, Bool.false_eq_true, if_false]
          rw [ih _ h2']
          simp [bumpCount, itemHasStatus, hsv, List.countP_cons]
        | arr xs => simp [hashable] at h1
        | obj gs => simp [hashable] at h1
    | null => simp at h1
    | bool b => simp at h1
    | num n => simp at h1
    | str s => simp at h1
    | arr xs => simp at h1

theorem round4_one : round4 1 = 1 := by
  norm_num [round4, round_eq]

theorem round4_round4 (q : ℚ) : round4 (round4 q) = round4 q := by
  unfold round4
  have h10 : ((10000 : ℚ)) ≠ 0 := by norm_num
  rw [div_mul_cancel₀ _ h10, round_intCast]

/-- Claim C7 fails as stated: an item whose status value is a list has zero
pass/partial/fail counts, yet _score_findings raises TypeError on the
membership test instead of returning the 1.0 score the claim requires. -/
theorem C7_score_counterexample :
    [Json.obj [("status", Json.arr [])]].countP (itemHasStatus "pass") = 0 ∧
    [Json.obj [("status", Json.arr [])]].countP (itemHasStatus "partial") = 0 ∧
    [Json.obj [("status", Json.arr [])]].countP (itemHasStatus "fail") = 0 ∧
    _score_findings [Json.obj [("status", Json.arr [])]] =
      .error "TypeError: unhashable type" :=
  ⟨rfl, rfl, rfl, rfl⟩

/-- Claim C7 (amended): on every item list whose items are dicts with
hashable status values, _score_findings returns the four status counts and
the score: 1 when P+R+F = 0, else (P·1.0 + R·0.5 + F·0.0)/(P+R+F) rounded
to 4 decimal places (not_applicable excluded from the denominator). -/
theorem C7_score_formula (items : List Json) (h : scoreInputOk items = true) :
    _score_findings items = .ok
      (items.countP (itemHasStatus "pass"),
       items.countP (itemHasStatus "partial"),
       items.countP (itemHasStatus "fail"),
       items.countP (itemHasStatus "not_applicable"),
       if items.countP (itemHasStatus "pass") + items.countP (itemHasStatus "partial")
            + items.countP (itemHasStatus "fail") = 0 then 1
       else round4 (((items.countP (itemHasStatus "pass") : ℚ) * 1.0
            + (items.countP (itemHasStatus "partial") : ℚ) * 0.5
            + (items.countP (itemHasStatus "fail") : ℚ) * 0.0)
          / ((items.countP (itemHasStatus "pass") + items.countP (itemHasStatus "partial")
            + items.countP (itemHasStatus "fail") : ℕ) : ℚ))) := by
  unfold _score_findings
  rw [countStatuses_spec items ⟨0, 0, 0, 0⟩ h]
  simp only [exceptBind_ok, Nat.zero_add, Except.ok.injEq, Prod.mk.injEq]
  refine ⟨trivial, trivial, trivial, trivial, ?_⟩
  by_cases hz : items.countP (itemHasStatus "pass") + items.countP (itemHasStatus "partial")
      + items.countP (itemHasStatus "fail") = 0
  · simp only [hz]
    norm_num [round4_one]
  · rw [if_neg hz, if_neg hz]
    congr 1
    push_cast
    ring

/-- Witness for C7 (amended) at the 2-pass/1-partial/1-fail backlog list:
score (2·1.0 + 1·0.5)/4 = 0.625. -/
theorem C7_score_formula_witness :
    scoreInputOk [Json.obj [("status", Json.str "pass")], Json.obj [("status", Json.str "pass")],
      Json.obj [("status", Json.str "partial")], Json.obj [("status", Json.str "fail")]] = true ∧
    _score_findings [Json.obj [("status", Json.str "pass")], Json.obj [("status", Json.str "pass")],
      Json.obj [("status", Json.str "partial")], Json.obj [("status", Json.str "fail")]] =
      .ok (2, 1, 1, 0, 0.625) := by
  refine ⟨rfl, ?_⟩
  have h := C7_score_formula [Json.obj [("status", Json.str "pass")], Json.obj [("status", Json.str "pass")],
      Json.obj [("status", Json.str "partial")], Json.obj [("status", Json.str "fail")]] rfl
  rw [h]
  simp [List.countP_cons, List.countP_nil, itemHasStatus, jsonLookup, round4, round_eq]
  norm_num

theorem itemHasStatus_unique {item : Json} {s s' : String}
    (h : itemHasStatus s item = true) (h' : itemHasStatus s' item = true) : s = s' := by
  cases item <;> simp [itemHasStatus] at h h'
  case obj fs =>
    rcases hsv : jsonLookup fs "status" with _ | v
    · rw [hsv] at h
      simp at h
    · rw [hsv] at h h'
      cases v <;> simp at h h'
      case str t =>
        rw [← h, ← h']

theorem allNa_scoreInputOk (items : List Json)
    (h : items.all (itemHasStatus "not_applicable") = true) : scoreInputOk items = true := by
  rw [List.all_eq_true] at h
  rw [scoreInputOk, List.all_eq_true]
  intro item hi
  have hna := h item hi
  cases item <;> simp [itemHasStatus] at hna ⊢
  case obj fs =>
    cases hsv : jsonLookup fs "status" <;> rw [hsv] at hna
    · simp at hna
    · case some v =>
      cases v <;> simp_all [hashable]

theorem countP_zero_of_allNa (items : List Json)
    (h : items.all (itemHasStatus "not_applicable") = true) (s : String)
    (hs : s ≠ "not_applicable") : items.countP (itemHasStatus s) = 0 := by
  rw [List.all_eq_true] at h
  rw [List.countP_eq_zero]
  intro item hi hcontra
  exact hs (itemHasStatus_unique hcontra (h item hi))

theorem mapM_ok_mem {α β : Type} {l : List α} {ys : List β} {f : α → Except String β}
    (h : l.mapM f = .ok ys) : ∀ y ∈ ys, ∃ x ∈ l, f x = .ok y := by
  induction l generalizing ys with
  | nil =>
    rw [List.mapM_nil] at h
    replace h : ([] : List β) = ys := by simpa using h
    subst h
    simp
  | cons a rest ih =>
    rw [List.mapM_cons] at h
    cases ha : f a <;> simp only [ha, exceptBind_ok, exceptBind_error] at h
    case error e => exact absurd h (by simp)
    case ok b =>
      cases hrest : rest.mapM f <;> simp only [hrest, exceptBind_ok, exceptBind_error] at h
      case error e => exact absurd h (by simp)
      case ok bs =>
        replace h : b :: bs = ys := by simpa using h
        subst h
        intro y hy
        rcases List.mem_cons.mp hy with rfl | hmem
        · exact ⟨a, List.mem_cons_self a rest, ha⟩
        · obtain ⟨x, hx, hfx⟩ := ih hrest y hmem
          exact ⟨x, List.mem_cons_of_mem a hx, hfx⟩

theorem score_findings_fifth_round4 {items : List Json} {v : Nat × Nat × Nat × Nat × ℚ}
    (h : _score_findings items = .ok v) : ∃ q, v.2.2.2.2 = round4 q := by
  simp only [_score_findings] at h
  cases hc : countStatuses items ⟨0, 0, 0, 0⟩ <;>
    simp only [hc, exceptBind_ok, exceptBind_error] at h
  case error e => exact absurd h (by simp)
  case ok c =>
    replace h := h.symm
    simp only [Except.ok.injEq] at h
    subst h
    exact ⟨_, rfl⟩

theorem scoreDomain_status_eq {domain : String} {controls : List (String × List Json)}
    {t : ℚ} {dr : DomainResult} (h : scoreDomain domain controls t = .ok dr) :
    dr.status = _domain_status dr.score t ∧ ∃ q, dr.score = round4 q := by
  simp only [scoreDomain] at h
  cases hs : _score_findings (controls.foldr (fun kv acc => kv.2 ++ acc) []) <;>
    simp only [hs, exceptBind_ok, exceptBind_error] at h
  case error e => exact absurd h (by simp)
  case ok v =>
    simp only [exceptPure_eq_ok, Except.ok.injEq] at h
    obtain ⟨q, hq⟩ := score_findings_fifth_round4 hs
    subst h
    exact ⟨rfl, q, hq⟩

/-- Claim C8: a domain whose items carry only not_applicable statuses (or no
items at all) scores exactly 1.0 and is banded "green" for every
green_threshold ≤ 1.0; banding is the uniform two-threshold rule
(score ≥ threshold → green, else score ≥ 0.50 → amber, else red), and
run_benchmark applies the same _domain_status rule to the per-domain scores
and to the overall score. -/
theorem C8_zero_scoreable_green :
    (∀ (domain : String) (controls : List (String × List Json)) (threshold : ℚ),
      threshold ≤ 1 →
      (controls.foldr (fun kv acc => kv.2 ++ acc) []).all (itemHasStatus "not_applicable") = true →
      ∃ dr, scoreDomain domain controls threshold = .ok dr ∧ dr.score = 1 ∧ dr.status = "green") ∧
    (∀ s t : ℚ,
      (_domain_status s t = "green" ↔ s ≥ t) ∧
      (_domain_status s t = "amber" ↔ ¬s ≥ t ∧ s ≥ 0.50) ∧
      (_domain_status s t = "red" ↔ ¬s ≥ t ∧ ¬s ≥ 0.50)) ∧
    (∀ (dcs : List (String × List (String × List Json)))
      (t : ℚ) (out : List DomainResult × ℚ × String), runBenchmarkScores dcs t = .ok out →
      (∀ dr ∈ out.1, dr.status = _domain_status dr.score t) ∧
      out.2.2 = _domain_status out.2.1 t) := by
  refine ⟨?_, ?_, ?_⟩
  · intro domain controls t ht hna
    have hok := allNa_scoreInputOk _ hna
    have hp := countP_zero_of_allNa _ hna "pass" (by simp)
    have hr := countP_zero_of_allNa _ hna "partial" (by simp)
    have hf := countP_zero_of_allNa _ hna "fail" (by simp)
    have hsf : _score_findings (controls.foldr (fun kv acc => kv.2 ++ acc) []) =
        .ok (0, 0, 0,
          (controls.foldr (fun kv acc => kv.2 ++ acc) []).countP (itemHasStatus "not_applicable"),
          1) := by
      simp only [_score_findings]
      rw [countStatuses_spec _ ⟨0, 0, 0, 0⟩ hok]
      simp only [exceptBind_ok, Nat.zero_add, hp, hr, hf]
      norm_num [round4_one]
    refine ⟨⟨domain, (controls.foldr (fun kv acc => kv.2 ++ acc) []).length, 0, 0, 0,
      (controls.foldr (fun kv acc => kv.2 ++ acc) []).countP (itemHasStatus "not_applicable"),
      1, _domain_status 1 t⟩, ?_, rfl, ?_⟩
    · simp only [scoreDomain, hsf, exceptBind_ok, exceptPure_eq_ok]
    · simp [_domain_status, if_pos ht]
  · intro s t
    unfold _domain_status
    refine ⟨?_, ?_, ?_⟩ <;> split_ifs with h1 h2 <;> simp_all
  · intro dcs t out hout
    simp only [runBenchmarkScores] at hout
    cases hm : dcs.mapM (fun kv => scoreDomain kv.1 kv.2 t) <;>
      simp only [hm, exceptBind_ok, exceptBind_error] at hout
    case error e => exact absurd hout (by simp)
    case ok res =>
      cases hsf : _score_findings (dcs.foldr
          (fun kv acc => (kv.2.foldr (fun c a => c.2 ++ a) []) ++ acc) []) <;>
        simp only [hsf, exceptBind_ok, exceptBind_error] at hout
      case error e => exact absurd hout (by simp)
      case ok v =>
        simp only [exceptPure_eq_ok, Except.ok.injEq] at hout
        obtain ⟨q, hq⟩ := score_findings_fifth_round4 hsf
        subst hout
        constructor
        · intro dr hdr
          obtain ⟨kv, _, hkv⟩ := mapM_ok_mem hm dr hdr
          exact (scoreDomain_status_eq hkv).1
        · show _domain_status v.2.2.2.2 t = _domain_status (round4 v.2.2.2.2) t
          rw [hq, round4_round4]
  
/-- Witness for C8 at a concrete one-control domain holding a single
not_applicable finding, threshold 0.80. -/
theorem C8_zero_scoreable_green_witness :
    (0.80 : ℚ) ≤ 1 ∧
    ∃ dr, scoreDomain "identity" [("SSCF-IAM-1", [Json.obj [("status", Json.str "not_applicable")]])]
        0.80 = .ok dr ∧ dr.score = 1 ∧ dr.status = "green" :=
  ⟨by norm_num,
   C8_zero_scoreable_green.1 "identity"
     [("SSCF-IAM-1", [Json.obj [("status", Json.str "not_applicable")]])] 0.80 (by norm_num) rfl⟩

theorem collect_cons_nomatch {g : List (String × Json)} {rest : List Json}
    (hm : findingMatches g = false) :
    collectCriticalFails (Json.obj g :: rest) = collectCriticalFails rest := by
  simp [collectCriticalFails, hm]

theorem collect_cons_match_cid {g : List (String × Json)} {rest : List Json} {cid : Json}
    (hm : findingMatches g = true) (hcid : jsonLookup g "control_id" = some cid) :
    collectCriticalFails (Json.obj g :: rest) =
      (do
        let others ← collectCriticalFails rest
        Except.ok (cid :: others)) := by
  simp [collectCriticalFails, hm, hcid]

theorem collect_cons_match_nocid {g : List (String × Json)} {rest : List Json}
    (hm : findingMatches g = true) (hcid : jsonLookup g "control_id" = none) :
    collectCriticalFails (Json.obj g :: rest) = .error () := by
  simp [collectCriticalFails, hm, hcid]

theorem collect_ok_of_wf (xs : List Json) (h : xs.all findingEntryOk = true) :
    ∃ l, collectCriticalFails xs = .ok l ∧
      (xs.any findingEntryMatches = true → l ≠ []) := by
  induction xs with
  | nil => exact ⟨[], rfl, by simp⟩
  | cons f rest ih =>
    rw [List.all_cons, Bool.and_eq_true] at h
    obtain ⟨h1, h2⟩ := h
    obtain ⟨l, hl, hne⟩ := ih h2
    cases f with
    | obj g =>
      by_cases hm : findingMatches g = true
      · replace h1 : (jsonLookup g "control_id").isSome = true := by
          simp [findingEntryOk, hm] at h1
          simpa using h1
        obtain ⟨cid, hcid⟩ := Option.isSome_iff_exists.mp h1
        refine ⟨cid :: l, ?_, by simp⟩
        rw [collect_cons_match_cid hm hcid, hl]
        rfl
      · replace hm : findingMatches g = false := by simpa using hm
        refine ⟨l, ?_, ?_⟩
        · rw [collect_cons_nomatch hm]
          exact hl
        · intro hany
          rw [List.any_cons, Bool.or_eq_true] at hany
          rcases hany with hf | hrest
          · simp [findingEntryMatches, hm] at hf
          · exact hne hrest
    | null => simp [findingEntryOk] at h1
    | bool b => simp [findingEntryOk] at h1
    | num n => simp [findingEntryOk] at h1
    | str t => simp [findingEntryOk] at h1
    | arr ys => simp [findingEntryOk] at h1

theorem collect_error_of_not_wf (xs : List Json) (h : xs.all findingEntryOk = false) :
    collectCriticalFails xs = .error () := by
  induction xs with
  | nil => simp at h
  | cons f rest ih =>
    rw [List.all_cons] at h
    cases f with
    | obj g =>
      by_cases hm : findingMatches g = true
      · cases hcid : jsonLookup g "control_id" with
        | none => exact collect_cons_match_nocid hm hcid
        | some cid =>
          have h1 : findingEntryOk (Json.obj g) = true := by
            simp [findingEntryOk, hcid]
          rw [h1, Bool.true_and] at h
          rw [collect_cons_match_cid hm hcid, ih h]
          rfl
      · replace hm : findingMatches g = false := by simpa using hm
        have h1 : findingEntryOk (Json.obj g) = true := by
          simp [findingEntryOk, hm]
        rw [h1, Bool.true_and] at h
        rw [collect_cons_nomatch hm]
        exact ih h
    | null => rfl
    | bool b => rfl
    | num n => rfl
    | str t => rfl
    | arr ys => rfl

theorem extract_empty_of_not_wf (doc : Json) (h : findingsWellFormed doc = false) :
    _extract_critical_fails (.content doc) = [] := by
  cases doc with
  | obj fields =>
    rw [findingsWellFormed] at h
    simp only [_extract_critical_fails, extractFromDoc]
    set fv : Json := (jsonLookup fields "findings").getD (.arr []) with hfv
    clear_value fv
    cases fv with
    | arr xs =>
      replace h : xs.all findingEntryOk = false := h
      show (match collectCriticalFails xs with | .ok l => l | .error _ => []) = []
      rw [collect_error_of_not_wf xs h]
    | str t => cases ht : t.data.isEmpty <;> simp [ht]
    | obj g => cases hg : g.isEmpty <;> simp [hg]
    | null => rfl
    | bool b => rfl
    | num n => rfl
  | null => rfl
  | bool b => rfl
  | num n => rfl
  | str t => rfl
  | arr ys => rfl

theorem extract_nonempty_of_wf (doc : Json) (hwf : findingsWellFormed doc = true)
    (hcrit : containsCriticalFinding doc = true) :
    _extract_critical_fails (.content doc) ≠ [] := by
  cases doc <;> simp [findingsWellFormed] at hwf
  case obj fields =>
    rw [containsCriticalFinding] at hcrit
    simp only [_extract_critical_fails, extractFromDoc]
    set fv : Json := (jsonLookup fields "findings").getD (.arr []) with hfv
    clear_value fv
    cases fv <;> simp at hwf
    case arr xs =>
      replace hcrit : xs.any findingEntryMatches = true := hcrit
      obtain ⟨l, hl, hne⟩ := collect_ok_of_wf xs (List.all_eq_true.mpr hwf)
      show (match collectCriticalFails xs with | .ok l => l | .error _ => []) ≠ []
      rw [hl]
      exact hne hcrit

/-- Claim C9: when the tracked gap-analysis artifact path is unset, points
to a missing file, to an unparseable file, or to parsed content without
well-formed findings entries, _extract_critical_fails returns [], so the
critical-fail gate does not block and the run finishes as a normal success
(memory summary saved when the memory client is up, loop_result written). -/
theorem C9_unreadable_artifact_skips_gate (art : GapArtifact)
    (h : art = .noPath ∨ art = .missingFile ∨ art = .unreadable ∨
      ∃ doc, art = .content doc ∧ findingsWellFormed doc = false) :
    _extract_critical_fails art = [] ∧
    ∀ dry_run approve_critical mem_available : Bool,
      gateAndFinish art dry_run approve_critical mem_available =
        { exitCode := none, memorySaved := mem_available, loopResultWritten := true,
          criticalFails := [] } := by
  have hempty : _extract_critical_fails art = [] := by
    rcases h with rfl | rfl | rfl | ⟨doc, rfl, hdoc⟩
    · rfl
    · rfl
    · rfl
    · exact extract_empty_of_not_wf doc hdoc
  refine ⟨hempty, fun dry_run approve_critical mem_available => ?_⟩
  simp [gateAndFinish, hempty]

/-- Witness for C9 at an artifact whose findings value is the number 5
(iterating it raises TypeError, which the gate helper swallows). -/
theorem C9_unreadable_artifact_skips_gate_witness :
    _extract_critical_fails (.content (.obj [("findings", .num 5)])) = [] ∧
    ∀ dry_run approve_critical mem_available : Bool,
      gateAndFinish (.content (.obj [("findings", .num 5)])) dry_run approve_critical
          mem_available =
        { exitCode := none, memorySaved := mem_available, loopResultWritten := true,
          criticalFails := [] } :=
  C9_unreadable_artifact_skips_gate (.content (.obj [("findings", .num 5)]))
    (Or.inr (Or.inr (Or.inr ⟨.obj [("findings", .num 5)], rfl, rfl⟩)))

/-- Claim C1: with a readable gap-analysis artifact holding well-formed
findings at least one of which is status=fail and severity=critical, a run
that is neither dry-run nor pre-approved ends blocked: exit code 2, no
memory summary saved and no loop_result.json written. -/
theorem C1_critical_gate_blocks (doc : Json) (mem_available : Bool)
    (hwf : findingsWellFormed doc = true)
    (hcrit : containsCriticalFinding doc = true) :
    _extract_critical_fails (.content doc) ≠ [] ∧
    gateAndFinish (.content doc) false false mem_available =
      { exitCode := some 2, memorySaved := false, loopResultWritten := false,
        criticalFails := _extract_critical_fails (.content doc) } := by
  have hne := extract_nonempty_of_wf doc hwf hcrit
  refine ⟨hne, ?_⟩
  rw [gateAndFinish]
  rw [if_pos]
  simp [List.isEmpty_iff, hne]

/-- Witness for C1 at a one-finding artifact with a critical/fail finding
and the memory client up. -/
theorem C1_critical_gate_blocks_witness :
    _extract_critical_fails (.content (.obj [("findings", .arr [.obj [
        ("control_id", .str "SBS-AUTH-001"), ("status", .str "fail"),
        ("severity", .str "critical")]])])) ≠ [] ∧
    gateAndFinish (.content (.obj [("findings", .arr [.obj [
        ("control_id", .str "SBS-AUTH-001"), ("status", .str "fail"),
        ("severity", .str "critical")]])])) false false true =
      { exitCode := some 2, memorySaved := false, loopResultWritten := false,
        criticalFails := _extract_critical_fails (.content (.obj [("findings", .arr [.obj [
          ("control_id", .str "SBS-AUTH-001"), ("status", .str "fail"),
          ("severity", .str "critical")]])])) } :=
  C1_critical_gate_blocks (.obj [("findings", .arr [.obj [
    ("control_id", .str "SBS-AUTH-001"), ("status", .str "fail"),
    ("severity", .str "critical")]])]) true rfl rfl

theorem dictGetJsonKey_ok {d : Obj} {key : Json} (h : hashable key = true) :
    dictGetJsonKey d key =
      .ok (match key with | .str s => jsonLookup d s | _ => none) := by
  simp only [dictGetJsonKey, h, Bool.not_true, Bool.false_eq_true, if_false]
  cases key <;> rfl

theorem sscfMappingsFor_ok (ovr dflt : Obj) (sid : String) (sbs : Obj)
    (h : hashable ((jsonLookup sbs "category").getD (.str "")) = true) :
    ∃ v, sscfMappingsFor ovr dflt sid sbs = .ok v := by
  cases ho : jsonLookup ovr sid with
  | some w =>
    cases htw : truthy w with
    | true =>
      exact ⟨w, by simp only [sscfMappingsFor, ho, htw, eq_self_iff_true, if_true,
        exceptPure_eq_ok]⟩
    | false =>
      simp [sscfMappingsFor, ho, htw, dictGetJsonKey, h]
      split <;> first | exact ⟨_, rfl⟩ | (split <;> exact ⟨_, rfl⟩)
  | none =>
    simp [sscfMappingsFor, ho, dictGetJsonKey, h]
    split <;> first | exact ⟨_, rfl⟩ | (split <;> exact ⟨_, rfl⟩)

theorem catalogCategory_hashable {cbi : List (String × Obj)} {s : String} {sbs : Obj}
    (h : catalogCategoriesHashable cbi = true) (hs : assocLookup cbi s = some sbs) :
    hashable ((jsonLookup sbs "category").getD (.str "")) = true := by
  rw [catalogCategoriesHashable, List.all_eq_true] at h
  exact h (s, sbs) (assocLookup_mem hs)

theorem routeFinding_ok (cbi mbl : List (String × Obj)) (ovr dflt : Obj) (f : Obj)
    (h : catalogCategoriesHashable cbi = true) :
    ∃ r, routeFinding cbi mbl ovr dflt f = .ok r := by
  by_cases hsw : pyStartsWith (pyStrip (pyStrOf ((jsonLookup f "control_id").getD (.str ""))))
      "SBS-" = true
  · cases hsbs : assocLookup cbi
        (pyStrip (pyStrOf ((jsonLookup f "control_id").getD (.str "")))) with
    | none =>
      simp only [routeFinding, hsw, if_true, hsbs, exceptPure_eq_ok]
      exact ⟨_, rfl⟩
    | some sbs =>
      cases hemp : sbs.isEmpty with
      | true =>
        simp only [routeFinding, hsw, if_true, hsbs, hemp, exceptPure_eq_ok]
        exact ⟨_, rfl⟩
      | false =>
        obtain ⟨v, hv⟩ := sscfMappingsFor_ok ovr dflt
          (pyStrip (pyStrOf ((jsonLookup f "control_id").getD (.str "")))) sbs
          (catalogCategory_hashable h hsbs)
        simp only [routeFinding, hsw, if_true, hsbs, hemp, Bool.false_eq_true,
          if_false, hv, exceptBind_ok, exceptPure_eq_ok]
        exact ⟨_, rfl⟩
  · replace hsw : pyStartsWith (pyStrip (pyStrOf ((jsonLookup f "control_id").getD (.str ""))))
        "SBS-" = false := by simpa using hsw
    cases hrow : assocLookup mbl
        (pyStrip (pyStrOf ((jsonLookup f "control_id").getD (.str "")))) with
    | none =>
      simp only [routeFinding, hsw, Bool.false_eq_true, if_false, hrow,
        exceptPure_eq_ok]
      exact ⟨_, rfl⟩
    | some map_row =>
      cases hremp : map_row.isEmpty with
      | true =>
        simp only [routeFinding, hsw, Bool.false_eq_true, if_false, hrow, hremp,
          exceptPure_eq_ok]
        exact ⟨_, rfl⟩
      | false =>
        cases hsbs : assocLookup cbi
            (pyStrip (pyStrOf ((jsonLookup map_row "sbs_control_id").getD (.str "")))) with
        | none =>
          simp only [routeFinding, hsw, Bool.false_eq_true, if_false, hrow,
            hremp, hsbs, exceptPure_eq_ok]
          exact ⟨_, rfl⟩
        | some sbs =>
          cases hemp : sbs.isEmpty with
          | true =>
            simp only [routeFinding, hsw, Bool.false_eq_true, if_false, hrow,
              hremp, hsbs, hemp, exceptPure_eq_ok]
            exact ⟨_, rfl⟩
          | false =>
            obtain ⟨v, hv⟩ := sscfMappingsFor_ok ovr dflt
              (pyStrip (pyStrOf ((jsonLookup map_row "sbs_control_id").getD (.str "")))) sbs
              (catalogCategory_hashable h hsbs)
            simp only [routeFinding, hsw, Bool.false_eq_true, if_false, hrow, hremp,
              hsbs, hemp, hv, exceptBind_ok, exceptPure_eq_ok]
            exact ⟨_, rfl⟩

theorem route_exactly_one (r : Route) :
    (Route.mappedItemOf r).isSome.toNat + (Route.unmappedItemOf r).isSome.toNat
      + (Route.invalidEntryOf r).isSome.toNat = 1 := by
  cases r <;> rfl

/-- Claim C6: for every findings list routed through the mapper (with a
loaded catalog whose category values are hashable, as in the shipped
catalog), the routing completes and every input finding lands in exactly
one of mapped_items, unmapped_items, invalid_mapping_entries: the three
buckets are the three filterMaps of the per-finding route, their lengths
sum to the number of findings, and each route fills exactly one bucket. -/
theorem C6_mapper_partition (cbi mbl : List (String × Obj)) (ovr dflt : Obj)
    (findings : List Obj) (h : catalogCategoriesHashable cbi = true) :
    ∃ rs : List Route,
      findings.mapM (routeFinding cbi mbl ovr dflt) = .ok rs ∧
      mapFindings cbi mbl ovr dflt findings =
        .ok (rs.filterMap Route.mappedItemOf, rs.filterMap Route.unmappedItemOf,
             rs.filterMap Route.invalidEntryOf) ∧
      rs.length = findings.length ∧
      (rs.filterMap Route.mappedItemOf).length + (rs.filterMap Route.unmappedItemOf).length
        + (rs.filterMap Route.invalidEntryOf).length = findings.length ∧
      ∀ r ∈ rs, (Route.mappedItemOf r).isSome.toNat + (Route.unmappedItemOf r).isSome.toNat
        + (Route.invalidEntryOf r).isSome.toNat = 1 := by
  induction findings with
  | nil => exact ⟨[], rfl, rfl, rfl, rfl, by simp⟩
  | cons f rest ih =>
    obtain ⟨rs, h1, h2, h3, h4, h5⟩ := ih
    obtain ⟨r, hr⟩ := routeFinding_ok cbi mbl ovr dflt f h
    refine ⟨r :: rs, ?_, ?_, by simp [h3], ?_, ?_⟩
    · rw [List.mapM_cons, hr, h1]
      rfl
    · cases r <;>
        simp only [mapFindings, hr, h2, exceptBind_ok, List.filterMap_cons,
          Route.mappedItemOf, Route.unmappedItemOf, Route.invalidEntryOf]
    · cases r <;>
        · simp only [List.filterMap_cons, Route.mappedItemOf, Route.unmappedItemOf,
            Route.invalidEntryOf, List.length_cons, List.length]
          omega
    · intro x hx
      rcases List.mem_cons.mp hx with rfl | hmem
      · exact route_exactly_one x
      · exact h5 x hmem

/-- Witness for C6: a two-finding gap analysis (one direct SBS finding, one
unknown legacy finding) against a one-control catalog. -/
theorem C6_mapper_partition_witness :
    catalogCategoriesHashable [("SBS-AUTH-001", [("control_id", Json.str "SBS-AUTH-001"),
      ("category", Json.str "Authentication"), ("title", Json.str "SSO")])] = true ∧
    ∃ rs : List Route,
      [[("control_id", Json.str "SBS-AUTH-001")], [("control_id", Json.str "LEGACY-1")]].mapM
        (routeFinding [("SBS-AUTH-001", [("control_id", Json.str "SBS-AUTH-001"),
          ("category", Json.str "Authentication"), ("title", Json.str "SSO")])] [] [] []) = .ok rs ∧
      mapFindings [("SBS-AUTH-001", [("control_id", Json.str "SBS-AUTH-001"),
          ("category", Json.str "Authentication"), ("title", Json.str "SSO")])] [] [] []
        [[("control_id", Json.str "SBS-AUTH-001")], [("control_id", Json.str "LEGACY-1")]] =
        .ok (rs.filterMap Route.mappedItemOf, rs.filterMap Route.unmappedItemOf,
             rs.filterMap Route.invalidEntryOf) ∧
      rs.length = 2 ∧
      (rs.filterMap Route.mappedItemOf).length + (rs.filterMap Route.unmappedItemOf).length
        + (rs.filterMap Route.invalidEntryOf).length = 2 ∧
      ∀ r ∈ rs, (Route.mappedItemOf r).isSome.toNat + (Route.unmappedItemOf r).isSome.toNat
        + (Route.invalidEntryOf r).isSome.toNat = 1 :=
  ⟨rfl, C6_mapper_partition [("SBS-AUTH-001", [("control_id", Json.str "SBS-AUTH-001"),
    ("category", Json.str "Authentication"), ("title", Json.str "SSO")])] [] [] []
    [[("control_id", Json.str "SBS-AUTH-001")], [("control_id", Json.str "LEGACY-1")]] rfl⟩

theorem severityOfControl_ok {fs : Obj}
    (h2 : ∀ v, jsonLookup fs "risk_level" = some v → truthy v = true → ∃ t, v = .str t) :
    ∃ s, severityOfControl (.obj fs) = .ok s := by
  cases hv : jsonLookup fs "risk_level" with
  | none =>
    exact ⟨pyLower "moderate", by simp only [severityOfControl, dictGet, hv, Option.getD,
      exceptBind_ok, truthy, Bool.false_eq_true, if_false]⟩
  | some v =>
    cases htv : truthy v with
    | false =>
      exact ⟨pyLower "moderate", by simp only [severityOfControl, dictGet, hv, Option.getD,
        exceptBind_ok, htv, Bool.false_eq_true, if_false]⟩
    | true =>
      obtain ⟨t, rfl⟩ := h2 v hv htv
      exact ⟨pyLower t, by simp only [severityOfControl, dictGet, hv, Option.getD,
        exceptBind_ok, htv, if_true]⟩

theorem wfControl_risk {fs : Obj} (h : wfControl (.obj fs) = true) :
    ∀ v, jsonLookup fs "risk_level" = some v → truthy v = true → ∃ t, v = .str t := by
  rw [wfControl, Bool.and_eq_true] at h
  intro v hv htv
  have h2 := h.2
  rw [hv] at h2
  cases v
  case str t => exact ⟨t, rfl⟩
  all_goals simp [htv] at h2

theorem wfControl_cid_hashable {fs : Obj} (h : wfControl (.obj fs) = true) :
    hashable ((jsonLookup fs "control_id").getD (.str "")) = true := by
  rw [wfControl, Bool.and_eq_true] at h
  exact h.1

/-- Claim C4 fails as stated: SBS-DATA-001 has a registered evaluation rule
(_rule_data_structural), yet on the empty input dict the rule returns a
partial finding, not a not_applicable one. -/
theorem C4_empty_scope_counterexample :
    assocLookup OscalAssess.RULES "SBS-DATA-001" =
      some (_rule_data_structural "SBS-DATA-001" "high") ∧
    ∃ f, _rule_data_structural "SBS-DATA-001" "high" [] = .ok f ∧
      f.status = "partial" ∧ f.status ≠ "not_applicable" :=
  ⟨rfl, ⟨_, rfl, rfl, by decide⟩⟩

/-- Claim C4 (amended): every registered rule except the three structural
data-security rules (SBS-DATA-001/002/003, which return partial regardless
of input), invoked on an empty input dict, returns a not_applicable Finding
for its own control id with a non-empty explanatory observed_value, and
does not raise. -/
theorem C4_empty_scope_not_applicable (cid : String) (r : Rule)
    (hr : assocLookup OscalAssess.RULES cid = some r)
    (hx : cid ∉ ["SBS-DATA-001", "SBS-DATA-002", "SBS-DATA-003"]) :
    ∃ f, r [] = .ok f ∧ f.status = "not_applicable" ∧ f.control_id = .str cid ∧
      f.observed_value ≠ "" := by
  have hscan : OscalAssess.RULES.all (fun p =>
      decide (p.1 ∈ ["SBS-DATA-001", "SBS-DATA-002", "SBS-DATA-003"]) ||
      (match p.2 [] with
       | .ok f => decide (f.status = "not_applicable") &&
           (match f.control_id with | .str s => decide (s = p.1) | _ => false) &&
           decide (f.observed_value ≠ "")
       | .error _ => false)) = true := by decide
  rw [List.all_eq_true] at hscan
  have hb := hscan (cid, r) (assocLookup_mem hr)
  simp only [Bool.or_eq_true, Bool.and_eq_true, decide_eq_true_eq] at hb
  rcases hb with h1 | hb
  · exact absurd h1 hx
  · cases hrf : r [] <;> rw [hrf] at hb
    · simp at hb
    · case ok f =>
      replace hb : ((decide (f.status = "not_applicable") &&
          (match f.control_id with | Json.str s => decide (s = cid) | _ => false)) &&
            decide (f.observed_value ≠ "")) = true := hb
      simp only [Bool.and_eq_true, decide_eq_true_eq] at hb
      obtain ⟨⟨hst, hcid⟩, hobs⟩ := hb
      cases hc : f.control_id <;> rw [hc] at hcid
      case str s =>
        replace hcid : decide (s = cid) = true := hcid
        rw [decide_eq_true_eq] at hcid
        exact ⟨f, rfl, hst, by rw [hc, hcid], hobs⟩
      all_goals simp at hcid

/-- Witness for C4 (amended) at SBS-AUTH-001. -/
theorem C4_empty_scope_not_applicable_witness :
    assocLookup OscalAssess.RULES "SBS-AUTH-001" = some _rule_auth_001 ∧
    "SBS-AUTH-001" ∉ ["SBS-DATA-001", "SBS-DATA-002", "SBS-DATA-003"] ∧
    ∃ f, _rule_auth_001 [] = .ok f ∧ f.status = "not_applicable" ∧
      f.control_id = .str "SBS-AUTH-001" ∧ f.observed_value ≠ "" :=
  ⟨rfl, by decide,
   C4_empty_scope_not_applicable "SBS-AUTH-001" _rule_auth_001 rfl (by decide)⟩

/-- Claim C5 fails as stated: SBS-CODE-004 is registered via
_rule_not_collectable, yet in dry-run mode the override table substitutes a
fail finding for it, not a not_applicable one. -/
theorem C5_dry_run_counterexample :
    "SBS-CODE-004" ∈ notCollectableIds ∧
    ∃ out, run_assessment none [.obj [("control_id", .str "SBS-CODE-004")]] true
        "org" "dev" "2026-01-01" = .ok out ∧
      out.map findingStatusOf = [some (.str "fail")] :=
  ⟨by decide, ⟨_, rfl, rfl⟩⟩

/-- Claim C5 (amended): for every control registered via
_rule_not_collectable and every well-formed catalog entry carrying its id,
the per-control assessment emits a not_applicable finding for every raw
input in non-dry-run mode; in dry-run mode the same holds except for
SBS-CODE-003 (whose override substitutes partial) and SBS-CODE-004 (whose
override substitutes fail). -/
theorem C5_not_collectable_status (cid : String) (control : Json) (raw : Option Obj)
    (dry_run : Bool) (org env date_str : String)
    (hmem : cid ∈ notCollectableIds)
    (hwf : wfControl control = true)
    (hcid : controlCid control = .str cid) :
    ∃ out, assessControl raw dry_run org env date_str control = .ok out ∧
      findingStatusOf out = some (.str
        (if dry_run then
          (if cid = "SBS-CODE-003" then "partial"
           else if cid = "SBS-CODE-004" then "fail" else "not_applicable")
         else "not_applicable")) := by
  cases control with
  | obj fs =>
    obtain ⟨s, hs⟩ := severityOfControl_ok (wfControl_risk hwf)
    replace hcid : (jsonLookup fs "control_id").getD (.str "") = .str cid := hcid
    simp only [notCollectableIds, List.mem_cons, List.not_mem_nil, or_false] at hmem
    rcases hmem with rfl|rfl|rfl|rfl|rfl|rfl|rfl|rfl|rfl|rfl|rfl|rfl|rfl|rfl|rfl <;>
      · simp only [assessControl, dictGet, hcid, exceptBind_ok, hs]
        cases dry_run
        · exact ⟨_, rfl, rfl⟩
        · exact ⟨_, rfl, rfl⟩
  | null => simp [wfControl] at hwf
  | bool b => simp [wfControl] at hwf
  | num n => simp [wfControl] at hwf
  | str t => simp [wfControl] at hwf
  | arr xs => simp [wfControl] at hwf

/-- Witness for C5 (amended): SBS-DEP-005 in dry-run mode still resolves to
not_applicable. -/
theorem C5_not_collectable_status_witness :
    "SBS-DEP-005" ∈ notCollectableIds ∧
    wfControl (.obj [("control_id", Json.str "SBS-DEP-005")]) = true ∧
    ∃ out, assessControl none true "org" "dev" "2026-01-01"
        (.obj [("control_id", Json.str "SBS-DEP-005")]) = .ok out ∧
      findingStatusOf out = some (.str
        (if true = true then
          (if "SBS-DEP-005" = "SBS-CODE-003" then "partial"
           else if "SBS-DEP-005" = "SBS-CODE-004" then "fail" else "not_applicable")
         else "not_applicable")) :=
  ⟨by decide, rfl,
   C5_not_collectable_status "SBS-DEP-005" (.obj [("control_id", Json.str "SBS-DEP-005")])
     none true "org" "dev" "2026-01-01" (by decide) rfl rfl⟩

theorem total_ok_of_wf {v : Json} (h : wfSoqlVal v = true) : ∃ n, _total v = .ok n := by
  rw [wfSoqlVal, Bool.and_eq_true] at h
  cases ht : _total v
  · rw [ht] at h
    simp at h
  · exact ⟨_, rfl⟩

theorem records_ok_of_wf {v : Json} (h : wfSoqlVal v = true) :
    ∃ rs, _records v = .ok rs := by
  rw [wfSoqlVal, Bool.and_eq_true] at h
  cases ht : _records v
  · rw [ht] at h
    simp at h
  · exact ⟨_, rfl⟩

theorem wfRaw_scope {raw : Obj} {n : String} (h : wfRaw raw = true) (hn : n ∈ scopeNames) :
    wfScopeVal (_scope raw n) = true := by
  rw [wfRaw, List.all_eq_true] at h
  exact h n hn

theorem wfScopeVal_obj {v : Json} (h : wfScopeVal v = true) (ht : truthy v = true) :
    ∃ fs, v = .obj fs ∧
      (soqlKeys.all fun k => wfSoqlVal ((jsonLookup fs k).getD (.obj []))) = true ∧
      wfEventLogVal ((jsonLookup fs "event_log_types").getD (.obj [])) = true ∧
      wfHealthVal ((jsonLookup fs "health_check").getD (.obj [])) = true := by
  cases v with
  | obj fs =>
    replace h : (!truthy (Json.obj fs) ||
        (((soqlKeys.all fun k => wfSoqlVal ((jsonLookup fs k).getD (.obj []))) &&
          wfEventLogVal ((jsonLookup fs "event_log_types").getD (.obj []))) &&
          wfHealthVal ((jsonLookup fs "health_check").getD (.obj [])))) = true := h
    rw [ht] at h
    simp only [Bool.not_true, Bool.false_or, Bool.and_eq_true] at h
    exact ⟨fs, rfl, h.1.1, h.1.2, h.2⟩
  | null =>
    replace h : (!truthy Json.null || false) = true := h
    rw [ht] at h
    simp at h
  | bool b =>
    replace h : (!truthy (Json.bool b) || false) = true := h
    rw [ht] at h
    simp at h
  | num n =>
    replace h : (!truthy (Json.num n) || false) = true := h
    rw [ht] at h
    simp at h
  | str t =>
    replace h : (!truthy (Json.str t) || false) = true := h
    rw [ht] at h
    simp at h
  | arr xs =>
    replace h : (!truthy (Json.arr xs) || false) = true := h
    rw [ht] at h
    simp at h

theorem soql_key_wf {fs : Obj} {k : String}
    (hall : (soqlKeys.all fun k => wfSoqlVal ((jsonLookup fs k).getD (.obj []))) = true)
    (hk : k ∈ soqlKeys) : wfSoqlVal ((jsonLookup fs k).getD (.obj [])) = true := by
  rw [List.all_eq_true] at hall
  exact hall k hk

theorem rule_auth_001_wf (raw : Obj) (h : wfRaw raw = true) :
    ∃ f, _rule_auth_001 raw = .ok f ∧ f.control_id = .str "SBS-AUTH-001" ∧
      f.status ∈ VALID_STATUSES := by
  have hsv := wfRaw_scope h (show "auth" ∈ scopeNames by decide)
  cases ht : truthy (_scope raw "auth") with
  | false =>
    have he : _rule_auth_001 raw = .ok (_na (.str "SBS-AUTH-001") "critical") := by
      simp only [_rule_auth_001, ht, Bool.not_false, if_true, exceptPure_eq_ok]
    exact ⟨_, he, rfl, by simp [_na, Finding.make, VALID_STATUSES]⟩
  | true =>
    obtain ⟨fs, hfs, hall, hev, hhc⟩ := wfScopeVal_obj hsv ht
    rw [hfs] at ht
    obtain ⟨provs, hp⟩ := records_ok_of_wf
      (soql_key_wf hall (show "sso_providers" ∈ soqlKeys by decide))
    cases hpe : provs.isEmpty with
    | true =>
      simp only [_rule_auth_001, hfs, ht, Bool.not_true, Bool.false_eq_true, if_false,
        dictGet, exceptBind_ok, hp, hpe, if_true, exceptPure_eq_ok]
      exact ⟨_, rfl, rfl, by simp [Finding.make, VALID_STATUSES]⟩
    | false =>
      cases hee : (provs.filter fun p => truthyOpt (jsonLookup p "IsEnabled")).isEmpty with
      | true =>
        simp only [_rule_auth_001, hfs, ht, Bool.not_true, Bool.false_eq_true, if_false,
          dictGet, exceptBind_ok, hp, hpe, hee, if_true, exceptPure_eq_ok]
        exact ⟨_, rfl, rfl, by simp [Finding.make, VALID_STATUSES]⟩
      | false =>
        simp only [_rule_auth_001, hfs, ht, Bool.not_true, Bool.false_eq_true, if_false,
          dictGet, exceptBind_ok, hp, hpe, hee, exceptPure_eq_ok]
        exact ⟨_, rfl, rfl, by simp [Finding.make, VALID_STATUSES]⟩

theorem rule_auth_002_wf (raw : Obj) (h : wfRaw raw = true) :
    ∃ f, _rule_auth_002 raw = .ok f ∧ f.control_id = .str "SBS-AUTH-002" ∧
      f.status ∈ VALID_STATUSES := by
  have hsv := wfRaw_scope h (show "auth" ∈ scopeNames by decide)
  cases ht : truthy (_scope raw "auth") with
  | false =>
    have he : _rule_auth_002 raw = .ok (_na (.str "SBS-AUTH-002") "moderate") := by
      simp only [_rule_auth_002, ht, Bool.not_false, if_true, exceptPure_eq_ok]
    exact ⟨_, he, rfl, by simp [_na, Finding.make, VALID_STATUSES]⟩
  | true =>
    obtain ⟨fs, hfs, hall, hev, hhc⟩ := wfScopeVal_obj hsv ht
    rw [hfs] at ht
    obtain ⟨provs, hp⟩ := records_ok_of_wf
      (soql_key_wf hall (show "sso_providers" ∈ soqlKeys by decide))
    obtain ⟨ip, hip⟩ := total_ok_of_wf
      (soql_key_wf hall (show "login_ip_ranges" ∈ soqlKeys by decide))
    cases hpe : provs.isEmpty with
    | true =>
      simp only [_rule_auth_002, hfs, ht, Bool.not_true, Bool.false_eq_true, if_false,
        dictGet, exceptBind_ok, hp, hip, hpe, if_true, exceptPure_eq_ok]
      exact ⟨_, rfl, rfl, by simp [Finding.make, VALID_STATUSES]⟩
    | false =>
      cases hz : ip == 0 with
      | true =>
        simp only [_rule_auth_002, hfs, ht, Bool.not_true, Bool.false_eq_true, if_false,
          dictGet, exceptBind_ok, hp, hip, hpe, hz, if_true, exceptPure_eq_ok]
        exact ⟨_, rfl, rfl, by simp [Finding.make, VALID_STATUSES]⟩
      | false =>
        simp only [_rule_auth_002, hfs, ht, Bool.not_true, Bool.false_eq_true, if_false,
          dictGet, exceptBind_ok, hp, hip, hpe, hz, exceptPure_eq_ok]
        exact ⟨_, rfl, rfl, by simp [Finding.make, VALID_STATUSES]⟩

theorem rule_auth_003_wf (raw : Obj) (h : wfRaw raw = true) :
    ∃ f, _rule_auth_003 raw = .ok f ∧ f.control_id = .str "SBS-AUTH-003" ∧
      f.status ∈ VALID_STATUSES := by
  have hsv := wfRaw_scope h (show "auth" ∈ scopeNames by decide)
  cases ht : truthy (_scope raw "auth") with
  | false =>
    have he : _rule_auth_003 raw = .ok (_na (.str "SBS-AUTH-003") "moderate") := by
      simp only [_rule_auth_003, ht, Bool.not_false, if_true, exceptPure_eq_ok]
    exact ⟨_, he, rfl, by simp [_na, Finding.make, VALID_STATUSES]⟩
  | true =>
    obtain ⟨fs, hfs, hall, hev, hhc⟩ := wfScopeVal_obj hsv ht
    rw [hfs] at ht
    obtain ⟨ip, hip⟩ := total_ok_of_wf
      (soql_key_wf hall (show "login_ip_ranges" ∈ soqlKeys by decide))
    cases hz : ip == 0 with
    | true =>
      simp only [_rule_auth_003, hfs, ht, Bool.not_true, Bool.false_eq_true, if_false,
        dictGet, exceptBind_ok, hip, hz, if_true, exceptPure_eq_ok]
      exact ⟨_, rfl, rfl, by simp [Finding.make, VALID_STATUSES]⟩
    | false =>
      by_cases h3 : ip < 3
      · simp only [_rule_auth_003, hfs, ht, Bool.not_true, Bool.false_eq_true, if_false,
          dictGet, exceptBind_ok, hip, hz, h3, if_true, exceptPure_eq_ok]
        exact ⟨_, rfl, rfl, by simp [Finding.make, VALID_STATUSES]⟩
      · simp only [_rule_auth_003, hfs, ht, Bool.not_true, Bool.false_eq_true, if_false,
          dictGet, exceptBind_ok, hip, hz, h3, exceptPure_eq_ok]
        exact ⟨_, rfl, rfl, by simp [Finding.make, VALID_STATUSES]⟩

theorem rule_auth_004_wf (raw : Obj) (h : wfRaw raw = true) :
    ∃ f, _rule_auth_004 raw = .ok f ∧ f.control_id = .str "SBS-AUTH-004" ∧
      f.status ∈ VALID_STATUSES := by
  have hsv := wfRaw_scope h (show "auth" ∈ scopeNames by decide)
  cases ht : truthy (_scope raw "auth") with
  | false =>
    have he : _rule_auth_004 raw = .ok (_na (.str "SBS-AUTH-004") "moderate") := by
      simp only [_rule_auth_004, ht, Bool.not_false, if_true, exceptPure_eq_ok]
    exact ⟨_, he, rfl, by simp [_na, Finding.make, VALID_STATUSES]⟩
  | true =>
    obtain ⟨fs, hfs, hall, hev, hhc⟩ := wfScopeVal_obj hsv ht
    rw [hfs] at ht
    cases herr : (match (jsonLookup fs "mfa_org_settings").getD (.obj []) with
        | Json.obj gs => (jsonLookup gs "error").isSome | _ => false) with
    | true =>
      simp only [_rule_auth_004, hfs, ht, Bool.not_true, Bool.false_eq_true, if_false,
        dictGet, exceptBind_ok, herr, if_true, exceptPure_eq_ok]
      exact ⟨_, rfl, rfl, by simp [Finding.make, VALID_STATUSES]⟩
    | false =>
      obtain ⟨recs, hr⟩ := records_ok_of_wf
        (soql_key_wf hall (show "mfa_org_settings" ∈ soqlKeys by decide))
      cases recs with
      | nil =>
        simp only [_rule_auth_004, hfs, ht, Bool.not_true, Bool.false_eq_true, if_false,
          dictGet, exceptBind_ok, herr, hr, exceptPure_eq_ok]
        exact ⟨_, rfl, rfl, by simp [Finding.make, VALID_STATUSES]⟩
      | cons rec rest =>
        cases hui : truthy ((jsonLookup rec "MultiFactorAuthenticationForUserUI").getD
            (.bool false)) with
        | true =>
          simp only [_rule_auth_004, hfs, ht, Bool.not_true, Bool.false_eq_true, if_false,
            dictGet, exceptBind_ok, herr, hr, hui, if_true, exceptPure_eq_ok]
          exact ⟨_, rfl, rfl, by simp [Finding.make, VALID_STATUSES]⟩
        | false =>
          simp only [_rule_auth_004, hfs, ht, Bool.not_true, Bool.false_eq_true, if_false,
            dictGet, exceptBind_ok, herr, hr, hui, exceptPure_eq_ok]
          exact ⟨_, rfl, rfl, by simp [Finding.make, VALID_STATUSES]⟩

theorem rule_acs_001_wf (raw : Obj) (h : wfRaw raw = true) :
    ∃ f, _rule_acs_001 raw = .ok f ∧ f.control_id = .str "SBS-ACS-001" ∧
      f.status ∈ VALID_STATUSES := by
  have hsv := wfRaw_scope h (show "access" ∈ scopeNames by decide)
  cases ht : truthy (_scope raw "access") with
  | false =>
    have he : _rule_acs_001 raw = .ok (_na (.str "SBS-ACS-001") "high") := by
      simp only [_rule_acs_001, ht, Bool.not_false, if_true, exceptPure_eq_ok]
    exact ⟨_, he, rfl, by simp [_na, Finding.make, VALID_STATUSES]⟩
  | true =>
    obtain ⟨fs, hfs, hall, hev, hhc⟩ := wfScopeVal_obj hsv ht
    rw [hfs] at ht
    obtain ⟨n, hn⟩ := total_ok_of_wf
      (soql_key_wf hall (show "admin_profiles" ∈ soqlKeys by decide))
    by_cases h5 : n > 5
    · simp only [_rule_acs_001, hfs, ht, Bool.not_true, Bool.false_eq_true, if_false,
        dictGet, exceptBind_ok, hn, h5, if_true, exceptPure_eq_ok]
      exact ⟨_, rfl, rfl, by simp [Finding.make, VALID_STATUSES]⟩
    · by_cases h2 : n > 2
      · simp only [_rule_acs_001, hfs, ht, Bool.not_true, Bool.false_eq_true, if_false,
          dictGet, exceptBind_ok, hn, h5, h2, if_true, exceptPure_eq_ok]
        exact ⟨_, rfl, rfl, by simp [Finding.make, VALID_STATUSES]⟩
      · simp only [_rule_acs_001, hfs, ht, Bool.not_true, Bool.false_eq_true, if_false,
          dictGet, exceptBind_ok, hn, h5, h2, exceptPure_eq_ok]
        exact ⟨_, rfl, rfl, by simp [Finding.make, VALID_STATUSES]⟩

theorem rule_acs_002_wf (raw : Obj) (h : wfRaw raw = true) :
    ∃ f, _rule_acs_002 raw = .ok f ∧ f.control_id = .str "SBS-ACS-002" ∧
      f.status ∈ VALID_STATUSES := by
  have hsv := wfRaw_scope h (show "access" ∈ scopeNames by decide)
  cases ht : truthy (_scope raw "access") with
  | false =>
    have he : _rule_acs_002 raw = .ok (_na (.str "SBS-ACS-002") "high") := by
      simp only [_rule_acs_002, ht, Bool.not_false, if_true, exceptPure_eq_ok]
    exact ⟨_, he, rfl, by simp [_na, Finding.make, VALID_STATUSES]⟩
  | true =>
    obtain ⟨fs, hfs, hall, hev, hhc⟩ := wfScopeVal_obj hsv ht
    rw [hfs] at ht
    obtain ⟨n, hn⟩ := total_ok_of_wf
      (soql_key_wf hall (show "elevated_permission_sets" ∈ soqlKeys by decide))
    by_cases h10 : n > 10
    · simp only [_rule_acs_002, hfs, ht, Bool.not_true, Bool.false_eq_true, if_false,
        dictGet, exceptBind_ok, hn, h10, if_true, exceptPure_eq_ok]
      exact ⟨_, rfl, rfl, by simp [Finding.make, VALID_STATUSES]⟩
    · by_cases h4 : n > 4
      · simp only [_rule_acs_002, hfs, ht, Bool.not_true, Bool.false_eq_true, if_false,
          dictGet, exceptBind_ok, hn, h10, h4, if_true, exceptPure_eq_ok]
        exact ⟨_, rfl, rfl, by simp [Finding.make, VALID_STATUSES]⟩
      · simp only [_rule_acs_002, hfs, ht, Bool.not_true, Bool.false_eq_true, if_false,
          dictGet, exceptBind_ok, hn, h10, h4, exceptPure_eq_ok]
        exact ⟨_, rfl, rfl, by simp [Finding.make, VALID_STATUSES]⟩

theorem rule_acs_003_wf (raw : Obj) (h : wfRaw raw = true) :
    ∃ f, _rule_acs_003 raw = .ok f ∧ f.control_id = .str "SBS-ACS-003" ∧
      f.status ∈ VALID_STATUSES := by
  have hsv := wfRaw_scope h (show "access" ∈ scopeNames by decide)
  cases ht : truthy (_scope raw "access") with
  | false =>
    have he : _rule_acs_003 raw = .ok (_na (.str "SBS-ACS-003") "critical") := by
      simp only [_rule_acs_003, ht, Bool.not_false, if_true, exceptPure_eq_ok]
    exact ⟨_, he, rfl, by simp [_na, Finding.make, VALID_STATUSES]⟩
  | true =>
    obtain ⟨fs, hfs, hall, hev, hhc⟩ := wfScopeVal_obj hsv ht
    rw [hfs] at ht
    obtain ⟨apps, ha⟩ := records_ok_of_wf
      (soql_key_wf hall (show "connected_apps" ∈ soqlKeys by decide))
    cases he1 : apps.isEmpty with
    | true =>
      simp only [_rule_acs_003, hfs, ht, Bool.not_true, Bool.false_eq_true, if_false,
        dictGet, exceptBind_ok, ha, he1, if_true, exceptPure_eq_ok]
      exact ⟨_, rfl, rfl, by simp [Finding.make, VALID_STATUSES]⟩
    | false =>
      cases heq : (apps.filter fun a =>
          !truthyOpt (jsonLookup a "OptionsAllowAdminApprovedUsersOnly")).length
          == apps.length with
      | true =>
        simp only [_rule_acs_003, hfs, ht, Bool.not_true, Bool.false_eq_true, if_false,
          dictGet, exceptBind_ok, ha, he1, heq, if_true, exceptPure_eq_ok]
        exact ⟨_, rfl, rfl, by simp [Finding.make, VALID_STATUSES]⟩
      | false =>
        cases hne : (apps.filter fun a =>
            !truthyOpt (jsonLookup a "OptionsAllowAdminApprovedUsersOnly")).isEmpty with
        | false =>
          simp only [_rule_acs_003, hfs, ht, Bool.not_true, Bool.false_eq_true, if_false,
            dictGet, exceptBind_ok, ha, he1, heq, hne, if_true, exceptPure_eq_ok]
          exact ⟨_, rfl, rfl, by simp [Finding.make, VALID_STATUSES]⟩
        | true =>
          simp only [_rule_acs_003, hfs, ht, Bool.not_true, Bool.false_eq_true, if_false,
            dictGet, exceptBind_ok, ha, he1, heq, hne, exceptPure_eq_ok]
          exact ⟨_, rfl, rfl, by simp [Finding.make, VALID_STATUSES]⟩

theorem rule_acs_004_wf (raw : Obj) (h : wfRaw raw = true) :
    ∃ f, _rule_acs_004 raw = .ok f ∧ f.control_id = .str "SBS-ACS-004" ∧
      f.status ∈ VALID_STATUSES := by
  have hsv := wfRaw_scope h (show "access" ∈ scopeNames by decide)
  cases ht : truthy (_scope raw "access") with
  | false =>
    have he : _rule_acs_004 raw = .ok (_na (.str "SBS-ACS-004") "high") := by
      simp only [_rule_acs_004, ht, Bool.not_false, if_true, exceptPure_eq_ok]
    exact ⟨_, he, rfl, by simp [_na, Finding.make, VALID_STATUSES]⟩
  | true =>
    obtain ⟨fs, hfs, hall, hev, hhc⟩ := wfScopeVal_obj hsv ht
    rw [hfs] at ht
    obtain ⟨profiles, hp⟩ := records_ok_of_wf
      (soql_key_wf hall (show "admin_profiles" ∈ soqlKeys by decide))
    by_cases h2 : (profiles.filter fun p =>
        truthyOpt (jsonLookup p "PermissionsModifyAllData") &&
          truthyOpt (jsonLookup p "PermissionsManageUsers")).length > 2
    · simp only [_rule_acs_004, hfs, ht, Bool.not_true, Bool.false_eq_true, if_false,
        dictGet, exceptBind_ok, hp, h2, if_true, exceptPure_eq_ok]
      exact ⟨_, rfl, rfl, by simp [Finding.make, VALID_STATUSES]⟩
    · by_cases h0 : (profiles.filter fun p =>
          truthyOpt (jsonLookup p "PermissionsModifyAllData") &&
            truthyOpt (jsonLookup p "PermissionsManageUsers")).length > 0
      · simp only [_rule_acs_004, hfs, ht, Bool.not_true, Bool.false_eq_true, if_false,
          dictGet, exceptBind_ok, hp, h2, h0, if_true, exceptPure_eq_ok]
        exact ⟨_, rfl, rfl, by simp [Finding.make, VALID_STATUSES]⟩
      · simp only [_rule_acs_004, hfs, ht, Bool.not_true, Bool.false_eq_true, if_false,
          dictGet, exceptBind_ok, hp, h2, h0, exceptPure_eq_ok]
        exact ⟨_, rfl, rfl, by simp [Finding.make, VALID_STATUSES]⟩

theorem rule_acs_structural_wf (cid sev : String) (raw : Obj) :
    ∃ f, _rule_acs_structural cid sev raw = .ok f ∧ f.control_id = .str cid ∧
      f.status ∈ VALID_STATUSES := by
  cases ht : truthy (_scope raw "access") with
  | false =>
    have he : _rule_acs_structural cid sev raw = .ok (_na (.str cid) sev) := by
      simp only [_rule_acs_structural, ht, Bool.not_false, if_true, exceptPure_eq_ok]
    exact ⟨_, he, rfl, by simp [_na, Finding.make, VALID_STATUSES]⟩
  | true =>
    simp only [_rule_acs_structural, ht, Bool.not_true, Bool.false_eq_true, if_false,
      exceptPure_eq_ok]
    exact ⟨_, rfl, rfl, by simp [Finding.make, VALID_STATUSES]⟩

theorem rule_int_002_wf (raw : Obj) (h : wfRaw raw = true) :
    ∃ f, _rule_int_002 raw = .ok f ∧ f.control_id = .str "SBS-INT-002" ∧
      f.status ∈ VALID_STATUSES := by
  have hsv := wfRaw_scope h (show "integrations" ∈ scopeNames by decide)
  cases ht : truthy (_scope raw "integrations") with
  | false =>
    have he : _rule_int_002 raw = .ok (_na (.str "SBS-INT-002") "moderate") := by
      simp only [_rule_int_002, ht, Bool.not_false, if_true, exceptPure_eq_ok]
    exact ⟨_, he, rfl, by simp [_na, Finding.make, VALID_STATUSES]⟩
  | true =>
    obtain ⟨fs, hfs, hall, hev, hhc⟩ := wfScopeVal_obj hsv ht
    rw [hfs] at ht
    obtain ⟨sites, hsites⟩ := records_ok_of_wf
      (soql_key_wf hall (show "remote_site_settings" ∈ soqlKeys by decide))
    cases hi : (sites.filter fun s => truthyOpt (jsonLookup s "DisableProtocolSecurity") &&
        truthyOpt (jsonLookup s "IsActive")).isEmpty with
    | false =>
      simp only [_rule_int_002, hfs, ht, Bool.not_true, Bool.false_eq_true, if_false,
        dictGet, exceptBind_ok, hsites, hi, if_true, exceptPure_eq_ok]
      exact ⟨_, rfl, rfl, by simp [Finding.make, VALID_STATUSES]⟩
    | true =>
      cases hi2 : (sites.filter fun s => truthyOpt (jsonLookup s "DisableProtocolSecurity") &&
          !truthyOpt (jsonLookup s "IsActive")).isEmpty with
      | false =>
        simp only [_rule_int_002, hfs, ht, Bool.not_true, Bool.false_eq_true, if_false,
          dictGet, exceptBind_ok, hsites, hi, hi2, if_true, exceptPure_eq_ok]
        exact ⟨_, rfl, rfl, by simp [Finding.make, VALID_STATUSES]⟩
      | true =>
        simp only [_rule_int_002, hfs, ht, Bool.not_true, Bool.false_eq_true, if_false,
          dictGet, exceptBind_ok, hsites, hi, hi2, exceptPure_eq_ok]
        exact ⟨_, rfl, rfl, by simp [Finding.make, VALID_STATUSES]⟩

theorem rule_int_003_wf (raw : Obj) (h : wfRaw raw = true) :
    ∃ f, _rule_int_003 raw = .ok f ∧ f.control_id = .str "SBS-INT-003" ∧
      f.status ∈ VALID_STATUSES := by
  have hsv := wfRaw_scope h (show "integrations" ∈ scopeNames by decide)
  cases ht : truthy (_scope raw "integrations") with
  | false =>
    have he : _rule_int_003 raw = .ok (_na (.str "SBS-INT-003") "moderate") := by
      simp only [_rule_int_003, ht, Bool.not_false, if_true, exceptPure_eq_ok]
    exact ⟨_, he, rfl, by simp [_na, Finding.make, VALID_STATUSES]⟩
  | true =>
    obtain ⟨fs, hfs, hall, hev, hhc⟩ := wfScopeVal_obj hsv ht
    rw [hfs] at ht
    obtain ⟨creds, hc⟩ := records_ok_of_wf
      (soql_key_wf hall (show "named_credentials" ∈ soqlKeys by decide))
    cases hce : creds.isEmpty with
    | true =>
      simp only [_rule_int_003, hfs, ht, Bool.not_true, Bool.false_eq_true, if_false,
        dictGet, exceptBind_ok, hc, hce, if_true, exceptPure_eq_ok]
      exact ⟨_, rfl, rfl, by simp [Finding.make, VALID_STATUSES]⟩
    | false =>
      simp only [_rule_int_003, hfs, ht, Bool.not_true, Bool.false_eq_true, if_false,
        dictGet, exceptBind_ok, hc, hce, exceptPure_eq_ok]
      exact ⟨_, rfl, rfl, by simp [Finding.make, VALID_STATUSES]⟩

theorem rule_oauth_001_wf (raw : Obj) (h : wfRaw raw = true) :
    ∃ f, _rule_oauth_001 raw = .ok f ∧ f.control_id = .str "SBS-OAUTH-001" ∧
      f.status ∈ VALID_STATUSES := by
  have hsv := wfRaw_scope h (show "oauth" ∈ scopeNames by decide)
  cases ht : truthy (_scope raw "oauth") with
  | false =>
    have he : _rule_oauth_001 raw = .ok (_na (.str "SBS-OAUTH-001") "critical") := by
      simp only [_rule_oauth_001, ht, Bool.not_false, if_true, exceptPure_eq_ok]
    exact ⟨_, he, rfl, by simp [_na, Finding.make, VALID_STATUSES]⟩
  | true =>
    obtain ⟨fs, hfs, hall, hev, hhc⟩ := wfScopeVal_obj hsv ht
    rw [hfs] at ht
    obtain ⟨policies, hp⟩ := records_ok_of_wf
      (soql_key_wf hall (show "connected_app_oauth_policies" ∈ soqlKeys by decide))
    cases hpe : policies.isEmpty with
    | true =>
      simp only [_rule_oauth_001, hfs, ht, Bool.not_true, Bool.false_eq_true, if_false,
        dictGet, exceptBind_ok, hp, hpe, if_true, exceptPure_eq_ok]
      exact ⟨_, rfl, rfl, by simp [Finding.make, VALID_STATUSES]⟩
    | false =>
      cases heq : (policies.filter fun p =>
          match (jsonLookup p "PermittedUsersPolicyEnum").getD (.str "") with
          | .str "AllUsers" => true
          | .str "" => true
          | _ => false).length == policies.length with
      | true =>
        simp only [_rule_oauth_001, hfs, ht, Bool.not_true, Bool.false_eq_true, if_false,
          dictGet, exceptBind_ok, hp, hpe, heq, if_true, exceptPure_eq_ok]
        exact ⟨_, rfl, rfl, by simp [Finding.make, VALID_STATUSES]⟩
      | false =>
        cases hne : (policies.filter fun p =>
            match (jsonLookup p "PermittedUsersPolicyEnum").getD (.str "") with
            | .str "AllUsers" => true
            | .str "" => true
            | _ => false).isEmpty with
        | false =>
          simp only [_rule_oauth_001, hfs, ht, Bool.not_true, Bool.false_eq_true, if_false,
            dictGet, exceptBind_ok, hp, hpe, heq, hne, if_true, exceptPure_eq_ok]
          exact ⟨_, rfl, rfl, by simp [Finding.make, VALID_STATUSES]⟩
        | true =>
          simp only [_rule_oauth_001, hfs, ht, Bool.not_true, Bool.false_eq_true, if_false,
            dictGet, exceptBind_ok, hp, hpe, heq, hne, exceptPure_eq_ok]
          exact ⟨_, rfl, rfl, by simp [Finding.make, VALID_STATUSES]⟩

theorem rule_oauth_002_wf (raw : Obj) (h : wfRaw raw = true) :
    ∃ f, _rule_oauth_002 raw = .ok f ∧ f.control_id = .str "SBS-OAUTH-002" ∧
      f.status ∈ VALID_STATUSES := by
  have hsv := wfRaw_scope h (show "oauth" ∈ scopeNames by decide)
  cases ht : truthy (_scope raw "oauth") with
  | false =>
    have he : _rule_oauth_002 raw = .ok (_na (.str "SBS-OAUTH-002") "critical") := by
      simp only [_rule_oauth_002, ht, Bool.not_false, if_true, exceptPure_eq_ok]
    exact ⟨_, he, rfl, by simp [_na, Finding.make, VALID_STATUSES]⟩
  | true =>
    obtain ⟨fs, hfs, hall, hev, hhc⟩ := wfScopeVal_obj hsv ht
    rw [hfs] at ht
    obtain ⟨policies, hp⟩ := records_ok_of_wf
      (soql_key_wf hall (show "connected_app_oauth_policies" ∈ soqlKeys by decide))
    cases hpe : policies.isEmpty with
    | true =>
      simp only [_rule_oauth_002, hfs, ht, Bool.not_true, Bool.false_eq_true, if_false,
        dictGet, exceptBind_ok, hp, hpe, if_true, exceptPure_eq_ok]
      exact ⟨_, rfl, rfl, by simp [Finding.make, VALID_STATUSES]⟩
    | false =>
      cases heq : (policies.filter fun p =>
          !truthyOpt (jsonLookup p "OptionsAllowAdminApprovedUsersOnly")).length
          == policies.length with
      | true =>
        simp only [_rule_oauth_002, hfs, ht, Bool.not_true, Bool.false_eq_true, if_false,
          dictGet, exceptBind_ok, hp, hpe, heq, if_true, exceptPure_eq_ok]
        exact ⟨_, rfl, rfl, by simp [Finding.make, VALID_STATUSES]⟩
      | false =>
        cases hne : (policies.filter fun p =>
            !truthyOpt (jsonLookup p "OptionsAllowAdminApprovedUsersOnly")).isEmpty with
        | false =>
          simp only [_rule_oauth_002, hfs, ht, Bool.not_true, Bool.false_eq_true, if_false,
            dictGet, exceptBind_ok, hp, hpe, heq, hne, if_true, exceptPure_eq_ok]
          exact ⟨_, rfl, rfl, by simp [Finding.make, VALID_STATUSES]⟩
        | true =>
          simp only [_rule_oauth_002, hfs, ht, Bool.not_true, Bool.false_eq_true, if_false,
            dictGet, exceptBind_ok, hp, hpe, heq, hne, exceptPure_eq_ok]
          exact ⟨_, rfl, rfl, by simp [Finding.make, VALID_STATUSES]⟩

theorem rule_oauth_structural_wf (cid sev : String) (raw : Obj) :
    ∃ f, _rule_oauth_structural cid sev raw = .ok f ∧ f.control_id = .str cid ∧
      f.status ∈ VALID_STATUSES := by
  cases ht : truthy (_scope raw "oauth") with
  | false =>
    have he : _rule_oauth_structural cid sev raw = .ok (_na (.str cid) sev) := by
      simp only [_rule_oauth_structural, ht, Bool.not_false, if_true, exceptPure_eq_ok]
    exact ⟨_, he, rfl, by simp [_na, Finding.make, VALID_STATUSES]⟩
  | true =>
    simp only [_rule_oauth_structural, ht, Bool.not_true, Bool.false_eq_true, if_false,
      exceptPure_eq_ok]
    exact ⟨_, rfl, rfl, by simp [Finding.make, VALID_STATUSES]⟩

theorem rule_data_004_wf (raw : Obj) (h : wfRaw raw = true) :
    ∃ f, _rule_data_004 raw = .ok f ∧ f.control_id = .str "SBS-DATA-004" ∧
      f.status ∈ VALID_STATUSES := by
  have hsv := wfRaw_scope h (show "event-monitoring" ∈ scopeNames by decide)
  cases ht : truthy (_scope raw "event-monitoring") with
  | false =>
    have he : _rule_data_004 raw = .ok (_na (.str "SBS-DATA-004") "high") := by
      simp only [_rule_data_004, ht, Bool.not_false, if_true, exceptPure_eq_ok]
    exact ⟨_, he, rfl, by simp [_na, Finding.make, VALID_STATUSES]⟩
  | true =>
    obtain ⟨fs, hfs, hall, hev, hhc⟩ := wfScopeVal_obj hsv ht
    rw [hfs] at ht
    obtain ⟨n, hn⟩ := total_ok_of_wf
      (soql_key_wf hall (show "field_history_retention" ∈ soqlKeys by decide))
    cases hz : n == 0 with
    | true =>
      simp only [_rule_data_004, hfs, ht, Bool.not_true, Bool.false_eq_true, if_false,
        dictGet, exceptBind_ok, hn, hz, if_true, exceptPure_eq_ok]
      exact ⟨_, rfl, rfl, by simp [Finding.make, VALID_STATUSES]⟩
    | false =>
      by_cases h10 : n < 10
      · simp only [_rule_data_004, hfs, ht, Bool.not_true, Bool.false_eq_true, if_false,
          dictGet, exceptBind_ok, hn, hz, h10, if_true, exceptPure_eq_ok]
        exact ⟨_, rfl, rfl, by simp [Finding.make, VALID_STATUSES]⟩
      · simp only [_rule_data_004, hfs, ht, Bool.not_true, Bool.false_eq_true, if_false,
          dictGet, exceptBind_ok, hn, hz, h10, exceptPure_eq_ok]
        exact ⟨_, rfl, rfl, by simp [Finding.make, VALID_STATUSES]⟩

theorem rule_data_structural_wf (cid sev : String) (raw : Obj) :
    ∃ f, _rule_data_structural cid sev raw = .ok f ∧ f.control_id = .str cid ∧
      f.status ∈ VALID_STATUSES := by
  exact ⟨_, rfl, rfl, by simp [Finding.make, VALID_STATUSES]⟩

theorem rule_dep_003_wf (raw : Obj) (h : wfRaw raw = true) :
    ∃ f, _rule_dep_003 raw = .ok f ∧ f.control_id = .str "SBS-DEP-003" ∧
      f.status ∈ VALID_STATUSES := by
  have hsv := wfRaw_scope h (show "transaction-security" ∈ scopeNames by decide)
  cases ht : truthy (_scope raw "transaction-security") with
  | false =>
    have he : _rule_dep_003 raw = .ok (_na (.str "SBS-DEP-003") "high") := by
      simp only [_rule_dep_003, ht, Bool.not_false, if_true, exceptPure_eq_ok]
    exact ⟨_, he, rfl, by simp [_na, Finding.make, VALID_STATUSES]⟩
  | true =>
    obtain ⟨fs, hfs, hall, hev, hhc⟩ := wfScopeVal_obj hsv ht
    rw [hfs] at ht
    obtain ⟨policies, hp⟩ := records_ok_of_wf
      (soql_key_wf hall (show "policies" ∈ soqlKeys by decide))
    cases hpe : policies.isEmpty with
    | true =>
      simp only [_rule_dep_003, hfs, ht, Bool.not_true, Bool.false_eq_true, if_false,
        dictGet, exceptBind_ok, hp, hpe, if_true, exceptPure_eq_ok]
      exact ⟨_, rfl, rfl, by simp [Finding.make, VALID_STATUSES]⟩
    | false =>
      cases hee : (policies.filter fun p => truthyOpt (jsonLookup p "IsEnabled")).isEmpty with
      | true =>
        simp only [_rule_dep_003, hfs, ht, Bool.not_true, Bool.false_eq_true, if_false,
          dictGet, exceptBind_ok, hp, hpe, hee, if_true, exceptPure_eq_ok]
        exact ⟨_, rfl, rfl, by simp [Finding.make, VALID_STATUSES]⟩
      | false =>
        simp only [_rule_dep_003, hfs, ht, Bool.not_true, Bool.false_eq_true, if_false,
          dictGet, exceptBind_ok, hp, hpe, hee, exceptPure_eq_ok]
        exact ⟨_, rfl, rfl, by simp [Finding.make, VALID_STATUSES]⟩

theorem rule_not_collectable_wf (cid sev reason : String) (raw : Obj) :
    ∃ f, _rule_not_collectable cid sev reason raw = .ok f ∧ f.control_id = .str cid ∧
      f.status ∈ VALID_STATUSES := by
  exact ⟨_, rfl, rfl, by simp [_rule_not_collectable, _na, Finding.make, VALID_STATUSES]⟩

theorem pyLtInt_ok_of_numbool {v : Json}
    (h : (match v with | Json.num _ => true | Json.bool _ => true | _ => false) = true)
    (k : Int) : ∃ b, pyLtInt v k = .ok b := by
  cases v <;> first | exact ⟨_, rfl⟩ | simp at h

theorem wfHealthVal_parts {v : Json} (h : wfHealthVal v = true) :
    wfSoqlVal v = true ∧ ∀ rec rest, _records v = .ok (rec :: rest) →
      (match (jsonLookup rec "Score").getD (.num 0) with
       | Json.num _ => true | Json.bool _ => true | _ => false) = true := by
  rw [wfHealthVal, Bool.and_eq_true] at h
  refine ⟨h.1, fun rec rest hr => ?_⟩
  have h2 := h.2
  rw [hr] at h2
  exact h2

theorem rule_secconf_001_wf (raw : Obj) (h : wfRaw raw = true) :
    ∃ f, _rule_secconf_001 raw = .ok f ∧ f.control_id = .str "SBS-SECCONF-001" ∧
      f.status ∈ VALID_STATUSES := by
  have hsv := wfRaw_scope h (show "secconf" ∈ scopeNames by decide)
  cases ht : truthy (_scope raw "secconf") with
  | false =>
    have he : _rule_secconf_001 raw = .ok (_na (.str "SBS-SECCONF-001") "high") := by
      simp only [_rule_secconf_001, ht, Bool.not_false, if_true, exceptPure_eq_ok]
    exact ⟨_, he, rfl, by simp [_na, Finding.make, VALID_STATUSES]⟩
  | true =>
    obtain ⟨fs, hfs, hall, hev, hhc⟩ := wfScopeVal_obj hsv ht
    rw [hfs] at ht
    obtain ⟨hsoql, hscore⟩ := wfHealthVal_parts hhc
    cases hnote : (match (jsonLookup fs "health_check").getD (.obj []) with
        | Json.obj gs => (jsonLookup gs "note").isSome | _ => false) with
    | true =>
      simp only [_rule_secconf_001, hfs, ht, Bool.not_true, Bool.false_eq_true, if_false,
        dictGet, exceptBind_ok, hnote, if_true, exceptPure_eq_ok]
      exact ⟨_, rfl, rfl, by simp [Finding.make, VALID_STATUSES]⟩
    | false =>
      obtain ⟨recs, hr⟩ := records_ok_of_wf hsoql
      cases recs with
      | nil =>
        simp only [_rule_secconf_001, hfs, ht, Bool.not_true, Bool.false_eq_true, if_false,
          dictGet, exceptBind_ok, hnote, hr, exceptPure_eq_ok]
        exact ⟨_, rfl, rfl, by simp [Finding.make, VALID_STATUSES]⟩
      | cons rec rest =>
        have hsc := hscore rec rest hr
        obtain ⟨b1, h50⟩ := pyLtInt_ok_of_numbool hsc 50
        obtain ⟨b2, h80⟩ := pyLtInt_ok_of_numbool hsc 80
        cases b1 with
        | true =>
          simp only [_rule_secconf_001, hfs, ht, Bool.not_true, Bool.false_eq_true, if_false,
            dictGet, exceptBind_ok, hnote, hr, h50, if_true, exceptPure_eq_ok]
          exact ⟨_, rfl, rfl, by simp [Finding.make, VALID_STATUSES]⟩
        | false =>
          cases b2 with
          | true =>
            simp only [_rule_secconf_001, hfs, ht, Bool.not_true, Bool.false_eq_true,
              if_false, dictGet, exceptBind_ok, hnote, hr, h50, h80, if_true,
              exceptPure_eq_ok]
            exact ⟨_, rfl, rfl, by simp [Finding.make, VALID_STATUSES]⟩
          | false =>
            simp only [_rule_secconf_001, hfs, ht, Bool.not_true, Bool.false_eq_true,
              if_false, dictGet, exceptBind_ok, hnote, hr, h50, h80, exceptPure_eq_ok]
            exact ⟨_, rfl, rfl, by simp [Finding.make, VALID_STATUSES]⟩

theorem rule_secconf_002_wf (raw : Obj) (h : wfRaw raw = true) :
    ∃ f, _rule_secconf_002 raw = .ok f ∧ f.control_id = .str "SBS-SECCONF-002" ∧
      f.status ∈ VALID_STATUSES := by
  have hsv := wfRaw_scope h (show "secconf" ∈ scopeNames by decide)
  cases ht : truthy (_scope raw "secconf") with
  | false =>
    have he : _rule_secconf_002 raw = .ok (_na (.str "SBS-SECCONF-002") "high") := by
      simp only [_rule_secconf_002, ht, Bool.not_false, if_true, exceptPure_eq_ok]
    exact ⟨_, he, rfl, by simp [_na, Finding.make, VALID_STATUSES]⟩
  | true =>
    obtain ⟨fs, hfs, hall, hev, hhc⟩ := wfScopeVal_obj hsv ht
    rw [hfs] at ht
    obtain ⟨hsoql, hscore⟩ := wfHealthVal_parts hhc
    obtain ⟨recs, hr⟩ := records_ok_of_wf hsoql
    cases recs with
    | nil =>
      simp only [_rule_secconf_002, hfs, ht, Bool.not_true, Bool.false_eq_true, if_false,
        dictGet, exceptBind_ok, hr, exceptPure_eq_ok]
      exact ⟨_, rfl, rfl, by simp [Finding.make, VALID_STATUSES]⟩
    | cons rec rest =>
      have hsc := hscore rec rest hr
      obtain ⟨b1, h50⟩ := pyLtInt_ok_of_numbool hsc 50
      obtain ⟨b2, h80⟩ := pyLtInt_ok_of_numbool hsc 80
      cases b1 with
      | true =>
        simp only [_rule_secconf_002, hfs, ht, Bool.not_true, Bool.false_eq_true, if_false,
          dictGet, exceptBind_ok, hr, h50, if_true, exceptPure_eq_ok]
        exact ⟨_, rfl, rfl, by simp [Finding.make, VALID_STATUSES]⟩
      | false =>
        cases b2 with
        | true =>
          simp only [_rule_secconf_002, hfs, ht, Bool.not_true, Bool.false_eq_true,
            if_false, dictGet, exceptBind_ok, hr, h50, h80, if_true, exceptPure_eq_ok]
          exact ⟨_, rfl, rfl, by simp [Finding.make, VALID_STATUSES]⟩
        | false =>
          simp only [_rule_secconf_002, hfs, ht, Bool.not_true, Bool.false_eq_true,
            if_false, dictGet, exceptBind_ok, hr, h50, h80, exceptPure_eq_ok]
          exact ⟨_, rfl, rfl, by simp [Finding.make, VALID_STATUSES]⟩

theorem wfEventLogVal_parts {v : Json} (h : wfEventLogVal v = true) :
    wfSoqlVal v = true ∧ ∀ rs, _records v = .ok rs →
      (rs.all fun r =>
        match jsonLookup r "EventType" with
        | none => true
        | some t => !truthy t || (match t with | Json.str _ => true | _ => false)) = true := by
  rw [wfEventLogVal, Bool.and_eq_true] at h
  refine ⟨h.1, fun rs hr => ?_⟩
  have h2 := h.2
  rw [hr] at h2
  exact h2

theorem ets_mem_str {rs : List Obj}
    (hall : (rs.all fun r =>
        match jsonLookup r "EventType" with
        | none => true
        | some t => !truthy t || (match t with | Json.str _ => true | _ => false)) = true)
    {v : Json}
    (hv : v ∈ rs.filterMap fun r =>
        let w := (jsonLookup r "EventType").getD .null
        if truthy w then some w else none) :
    ∃ s, v = Json.str s := by
  rw [List.mem_filterMap] at hv
  obtain ⟨r, hr, hveq⟩ := hv
  rw [List.all_eq_true] at hall
  have hp := hall r hr
  cases hjl : jsonLookup r "EventType" with
  | none =>
    simp only [hjl, Option.getD_none] at hveq
    simp [truthy] at hveq
  | some t =>
    rw [hjl] at hp
    simp only [hjl, Option.getD_some] at hveq
    cases t with
    | str s =>
      cases htt : truthy (Json.str s) with
      | false =>
        rw [htt] at hveq
        simp at hveq
      | true =>
        rw [htt] at hveq
        simp only [if_true] at hveq
        exact ⟨s, (Option.some.inj hveq).symm⟩
    | null => simp [truthy] at hveq
    | bool b =>
      cases b with
      | false => simp [truthy] at hveq
      | true =>
        replace hp : (!truthy (Json.bool true) || false) = true := hp
        simp [truthy] at hp
    | num n =>
      cases htn : truthy (Json.num n) with
      | false =>
        rw [htn] at hveq
        simp at hveq
      | true =>
        replace hp : (!truthy (Json.num n) || false) = true := hp
        rw [htn] at hp
        simp at hp
    | arr xs =>
      cases htn : truthy (Json.arr xs) with
      | false =>
        rw [htn] at hveq
        simp at hveq
      | true =>
        replace hp : (!truthy (Json.arr xs) || false) = true := hp
        rw [htn] at hp
        simp at hp
    | obj gs =>
      cases htn : truthy (Json.obj gs) with
      | false =>
        rw [htn] at hveq
        simp at hveq
      | true =>
        replace hp : (!truthy (Json.obj gs) || false) = true := hp
        rw [htn] at hp
        simp at hp

theorem mem_of_mem_dedupBy {α : Type} {eqf : α → α → Bool} {l : List α} {x : α}
    (h : x ∈ dedupBy eqf l) : x ∈ l := by
  induction l with
  | nil => exact absurd h (by simp [dedupBy])
  | cons a as ih =>
    rw [dedupBy] at h
    cases he : listElemBy eqf a as with
    | true =>
      simp only [he] at h
      exact List.mem_cons_of_mem a (ih h)
    | false =>
      simp only [he, Bool.false_eq_true, if_false] at h
      rcases List.mem_cons.mp h with rfl | h2
      · exact List.mem_cons.mpr (Or.inl rfl)
      · exact List.mem_cons_of_mem a (ih h2)

theorem rule_int_004_wf (raw : Obj) (h : wfRaw raw = true) :
    ∃ f, _rule_int_004 raw = .ok f ∧ f.control_id = .str "SBS-INT-004" ∧
      f.status ∈ VALID_STATUSES := by
  have hsv := wfRaw_scope h (show "event-monitoring" ∈ scopeNames by decide)
  cases ht : truthy (_scope raw "event-monitoring") with
  | false =>
    have he : _rule_int_004 raw = .ok (_na (.str "SBS-INT-004") "high") := by
      simp only [_rule_int_004, ht, Bool.not_false, if_true, exceptPure_eq_ok]
    exact ⟨_, he, rfl, by simp [_na, Finding.make, VALID_STATUSES]⟩
  | true =>
    obtain ⟨fs, hfs, hall, hev, hhc⟩ := wfScopeVal_obj hsv ht
    rw [hfs] at ht
    obtain ⟨hsoql, hlog⟩ := wfEventLogVal_parts hev
    obtain ⟨log_types, hlt⟩ := records_ok_of_wf hsoql
    have hallr := hlog log_types hlt
    have han : ((log_types.filterMap fun r =>
        let w := (jsonLookup r "EventType").getD .null
        if truthy w then some w else none).any fun v => !hashable v) = false := by
      cases hcase : ((log_types.filterMap fun r =>
          let w := (jsonLookup r "EventType").getD .null
          if truthy w then some w else none).any fun v => !hashable v) with
      | false => rfl
      | true =>
        exfalso
        rw [List.any_eq_true] at hcase
        obtain ⟨v, hv, hbad⟩ := hcase
        obtain ⟨s, rfl⟩ := ets_mem_str hallr hv
        simp [hashable] at hbad
    have hu2 : ((dedupBy pyEqScalar (log_types.filterMap fun r =>
        let w := (jsonLookup r "EventType").getD .null
        if truthy w then some w else none)).any fun t =>
          match t with | Json.str _ => false | _ => true) = false := by
      cases hcase : ((dedupBy pyEqScalar (log_types.filterMap fun r =>
          let w := (jsonLookup r "EventType").getD .null
          if truthy w then some w else none)).any fun t =>
            match t with | Json.str _ => false | _ => true) with
      | false => rfl
      | true =>
        exfalso
        rw [List.any_eq_true] at hcase
        obtain ⟨t, htm, hbad⟩ := hcase
        obtain ⟨s, rfl⟩ := ets_mem_str hallr (mem_of_mem_dedupBy htm)
        simp at hbad
    cases hue : (dedupBy pyEqScalar (log_types.filterMap fun r =>
        let w := (jsonLookup r "EventType").getD .null
        if truthy w then some w else none)).isEmpty with
    | true =>
      simp only [_rule_int_004, hfs, ht, Bool.not_true, Bool.false_eq_true, if_false,
        dictGet, exceptBind_ok, hlt, han, hue, if_true, exceptPure_eq_ok]
      exact ⟨_, rfl, rfl, by simp [Finding.make, VALID_STATUSES]⟩
    | false =>
      cases hapi : (((dedupBy pyEqScalar (log_types.filterMap fun r =>
          let w := (jsonLookup r "EventType").getD .null
          if truthy w then some w else none)).filterMap fun t =>
            match t with | Json.str s => some s | _ => none).filter fun t =>
              hasSubstr (pyUpper t).data "API".data ||
                hasSubstr (pyUpper t).data "REST".data).isEmpty with
      | true =>
        simp only [_rule_int_004, hfs, ht, Bool.not_true, Bool.false_eq_true, if_false,
          dictGet, exceptBind_ok, hlt, han, hu2, hue, hapi, if_true, exceptPure_eq_ok]
        exact ⟨_, rfl, rfl, by simp [Finding.make, VALID_STATUSES]⟩
      | false =>
        simp only [_rule_int_004, hfs, ht, Bool.not_true, Bool.false_eq_true, if_false,
          dictGet, exceptBind_ok, hlt, han, hu2, hue, hapi, exceptPure_eq_ok]
        exact ⟨_, rfl, rfl, by simp [Finding.make, VALID_STATUSES]⟩

theorem override_status_valid :
    ∀ p ∈ _DRY_RUN_OVERRIDES, p.2.1 ∈ VALID_STATUSES := by decide

theorem wfRaw_nil : wfRaw [] = true := by decide

theorem registered_rule_wf {cid : String} {rule : Rule}
    (hr : assocLookup RULES cid = some rule) (raw : Obj) (hwf : wfRaw raw = true) :
    ∃ f, rule raw = .ok f ∧ f.control_id = .str cid ∧ f.status ∈ VALID_STATUSES := by
  have hmem := assocLookup_mem hr
  simp only [RULES, List.mem_cons, List.not_mem_nil, or_false] at hmem
  rcases hmem with h|h|h|h|h|h|h|h|h|h|h|h|h|h|h|h|h|h|h|h|h|h|h|h|h|h|h|h|h|h|h|h|h|h|h|h|h|h|h|h|h|h|h|h|h <;>
    (rw [Prod.mk.injEq] at h
     obtain ⟨hc, hrr⟩ := h
     subst hc
     subst hrr
     first
     | exact rule_auth_001_wf raw hwf
     | exact rule_auth_002_wf raw hwf
     | exact rule_auth_003_wf raw hwf
     | exact rule_auth_004_wf raw hwf
     | exact rule_acs_001_wf raw hwf
     | exact rule_acs_002_wf raw hwf
     | exact rule_acs_003_wf raw hwf
     | exact rule_acs_004_wf raw hwf
     | exact rule_acs_structural_wf _ _ raw
     | exact rule_int_002_wf raw hwf
     | exact rule_int_003_wf raw hwf
     | exact rule_int_004_wf raw hwf
     | exact rule_oauth_001_wf raw hwf
     | exact rule_oauth_002_wf raw hwf
     | exact rule_oauth_structural_wf _ _ raw
     | exact rule_data_structural_wf _ _ raw
     | exact rule_data_004_wf raw hwf
     | exact rule_secconf_001_wf raw hwf
     | exact rule_secconf_002_wf raw hwf
     | exact rule_dep_003_wf raw hwf
     | exact rule_not_collectable_wf _ _ _ raw)

theorem findingCidOf_to_dict (f : Finding) (org env d : String) :
    findingCidOf (f.to_dict org env d) = some f.control_id := by
  simp [Finding.to_dict, findingCidOf, jsonLookup]

theorem findingStatusOf_to_dict (f : Finding) (org env d : String) :
    findingStatusOf (f.to_dict org env d) = some (.str f.status) := by
  simp [Finding.to_dict, findingStatusOf, jsonLookup]

theorem assessControl_ok (raw : Option Obj) (dry_run : Bool) (org env date_str : String)
    (c : Json) (hc : wfControl c = true) (hraw : wfRaw (raw.getD []) = true) :
    ∃ f : Finding, assessControl raw dry_run org env date_str c =
        .ok (f.to_dict org env date_str) ∧
      f.control_id = controlCid c ∧ f.status ∈ VALID_STATUSES := by
  cases c with
  | null => simp [wfControl] at hc
  | bool b => simp [wfControl] at hc
  | num n => simp [wfControl] at hc
  | str t => simp [wfControl] at hc
  | arr xs => simp [wfControl] at hc
  | obj fs =>
    obtain ⟨sev, hsev⟩ := severityOfControl_ok (wfControl_risk hc)
    have hcidh := wfControl_cid_hashable hc
    cases hcv : (jsonLookup fs "control_id").getD (.str "") with
    | arr xs =>
      rw [hcv] at hcidh
      simp [hashable] at hcidh
    | obj gs =>
      rw [hcv] at hcidh
      simp [hashable] at hcidh
    | null =>
      refine ⟨_na .null sev "No assessment rule defined", ?_,
        by simp [controlCid, hcv, _na, Finding.make],
        by simp [_na, Finding.make, VALID_STATUSES]⟩
      simp only [assessControl, dictGet, exceptBind_ok, hcv, hsev, rulesGet, hashable,
        Bool.not_true, Bool.false_eq_true, if_false, exceptPure_eq_ok]
    | bool b =>
      refine ⟨_na (.bool b) sev "No assessment rule defined", ?_,
        by simp [controlCid, hcv, _na, Finding.make],
        by simp [_na, Finding.make, VALID_STATUSES]⟩
      simp only [assessControl, dictGet, exceptBind_ok, hcv, hsev, rulesGet, hashable,
        Bool.not_true, Bool.false_eq_true, if_false, exceptPure_eq_ok]
    | num n =>
      refine ⟨_na (.num n) sev "No assessment rule defined", ?_,
        by simp [controlCid, hcv, _na, Finding.make],
        by simp [_na, Finding.make, VALID_STATUSES]⟩
      simp only [assessControl, dictGet, exceptBind_ok, hcv, hsev, rulesGet, hashable,
        Bool.not_true, Bool.false_eq_true, if_false, exceptPure_eq_ok]
    | str s =>
      cases hlook : assocLookup RULES s with
      | none =>
        refine ⟨_na (.str s) sev "No assessment rule defined", ?_,
          by simp [controlCid, hcv, _na, Finding.make],
          by simp [_na, Finding.make, VALID_STATUSES]⟩
        simp only [assessControl, dictGet, exceptBind_ok, hcv, hsev, rulesGet, hashable,
          Bool.not_true, Bool.false_eq_true, if_false, hlook, exceptPure_eq_ok]
      | some rule =>
        cases dry_run with
        | false =>
          obtain ⟨f, hru, hfc, hfs2⟩ := registered_rule_wf hlook (raw.getD []) hraw
          refine ⟨f, ?_, by simp [controlCid, hcv, hfc], hfs2⟩
          simp only [assessControl, dictGet, exceptBind_ok, hcv, hsev, rulesGet, hashable,
            Bool.not_true, Bool.false_eq_true, if_false, hlook, hru, exceptBind_ok,
            exceptPure_eq_ok]
        | true =>
          cases hov : assocLookup _DRY_RUN_OVERRIDES s with
          | some t =>
            obtain ⟨st, ob, rem⟩ := t
            have hstv : st ∈ VALID_STATUSES :=
              override_status_valid _ (assocLookup_mem hov)
            refine ⟨{ control_id := .str s, status := st, severity := sev,
                      observed_value := ob, remediation := rem,
                      owner := "Business Security Services", due_date := "" },
              ?_, by simp [controlCid, hcv], hstv⟩
            simp only [assessControl, dictGet, exceptBind_ok, hcv, hsev, rulesGet, hashable,
              Bool.not_true, Bool.false_eq_true, if_false, hlook, if_true, hov,
              exceptPure_eq_ok]
          | none =>
            obtain ⟨f, hru, hfc, hfs2⟩ := registered_rule_wf hlook [] wfRaw_nil
            refine ⟨f, ?_, by simp [controlCid, hcv, hfc], hfs2⟩
            simp only [assessControl, dictGet, exceptBind_ok, hcv, hsev, rulesGet, hashable,
              Bool.not_true, Bool.false_eq_true, if_false, hlook, if_true, hov, hru,
              exceptBind_ok, exceptPure_eq_ok]

/-- Claim C3 fails as stated: run_assessment does not tolerate every raw
scope input.  With a catalog containing SBS-AUTH-003 and an auth scope whose
login_ip_ranges has totalSize null, int(None) raises TypeError and the whole
assessment aborts instead of returning one finding per catalog entry. -/
theorem C3_run_assessment_counterexample :
    run_assessment
        (some [("auth", Json.obj [("login_ip_ranges", Json.obj [("totalSize", Json.null)])])])
        [Json.obj [("control_id", Json.str "SBS-AUTH-003")]] false "o" "dev" "2026-01-01" =
      .error "TypeError: int() argument" := by rfl

/-- Claim C3, amended: for every catalog list whose entries are well-formed
(dict entries with hashable control_id and string-or-falsy risk_level) and
every well-typed raw scope input (wfRaw: int-convertible totalSize values,
iterable records, string truthy EventTypes, numeric health-check Score) —
including raw = None, whose effective dict {} is well-typed — run_assessment
returns exactly one serialised finding per catalog entry in order, keyed by
that entry's control_id, with every status in the closed enumeration
pass/fail/partial/not_applicable, and never raises. -/
theorem C3_run_assessment_total (raw : Option Obj) (controls : List Json) (dry_run : Bool)
    (org env date_str : String)
    (hcs : controls.all wfControl = true)
    (hraw : wfRaw (raw.getD []) = true) :
    ∃ out, run_assessment raw controls dry_run org env date_str = .ok out ∧
      out.length = controls.length ∧
      List.Forall₂ (fun c j => findingCidOf j = some (controlCid c) ∧
        ∃ s, findingStatusOf j = some (Json.str s) ∧ s ∈ VALID_STATUSES) controls out := by
  revert hcs
  induction controls with
  | nil =>
    intro _
    refine ⟨[], ?_, rfl, List.Forall₂.nil⟩
    rw [run_assessment, List.mapM_nil]
    rfl
  | cons c cs ih =>
    intro hcs
    rw [List.all_cons, Bool.and_eq_true] at hcs
    obtain ⟨out, hout, hlen, hfa⟩ := ih hcs.2
    obtain ⟨f, hf, hfc, hfs2⟩ := assessControl_ok raw dry_run org env date_str c hcs.1 hraw
    refine ⟨f.to_dict org env date_str :: out, ?_, by simp [hlen], ?_⟩
    · rw [run_assessment, List.mapM_cons]
      rw [run_assessment] at hout
      simp only [hf, exceptBind_ok, hout, exceptPure_eq_ok]
    · exact List.Forall₂.cons
        ⟨by rw [findingCidOf_to_dict, hfc],
         ⟨f.status, findingStatusOf_to_dict f org env date_str, hfs2⟩⟩ hfa

/-- Witness for C3_run_assessment_total at a concrete catalog and raw = None. -/
theorem C3_run_assessment_total_witness :
    ([Json.obj [("control_id", Json.str "SBS-AUTH-001")]].all wfControl = true) ∧
    (wfRaw ((none : Option Obj).getD []) = true) ∧
    ∃ out, run_assessment none [Json.obj [("control_id", Json.str "SBS-AUTH-001")]] false
        "o" "dev" "2026-01-01" = .ok out ∧
      out.length = [Json.obj [("control_id", Json.str "SBS-AUTH-001")]].length ∧
      List.Forall₂ (fun c j => findingCidOf j = some (controlCid c) ∧
        ∃ s, findingStatusOf j = some (Json.str s) ∧ s ∈ VALID_STATUSES)
        [Json.obj [("control_id", Json.str "SBS-AUTH-001")]] out :=
  ⟨by decide, by decide,
   C3_run_assessment_total none [Json.obj [("control_id", Json.str "SBS-AUTH-001")]] false
     "o" "dev" "2026-01-01" (by decide) (by decide)⟩
